import Mathlib

/-!
Verification of the boat-data analyzer (`main.py`) against its
natural-language specification.

The program's core is `analyze_dataframe`, which takes a pandas dataframe
and an ambient temperature, validates the presence of required columns,
derives an averaged `Lambda` channel, evaluates per-row threshold rules,
runs a time-accumulating debounce over the instantaneous-violation flag
`OUT`, and annotates the frame with the resulting columns.  The `upload`
route then reduces the annotated frame to a verdict string.

We embed the dataframe as an ordered list of named columns of cells.  A
cell is a rational number, a missing value (pandas `NaN`), a boolean (as
stored by the derived flag columns), or a raw string (the value a
non-numeric CSV entry gets in an object-dtype column).  Pandas semantics
modelled here: ordered comparisons and `between` are `False` on `NaN`;
ordered comparisons, row means and `diff` raise `TypeError` when the
involved column holds a string; `mean(axis=1)` skips `NaN` (all-`NaN`
rows give `NaN`); `diff().fillna(0)` turns the first difference and any
`NaN` difference into `0`; `rolling(2).max()` is `NaN` on the first row.
-/

namespace Boat

/-- A dataframe cell: numeric value, missing value (`NaN`), boolean
(derived flag columns), or a raw non-numeric string. -/
inductive Cell where
  | num (q : ℚ)
  | nan : Cell
  | bool (b : Bool)
  | str (s : String)
deriving DecidableEq, Repr

/-- Whether a cell is a raw string (a non-numeric CSV entry). -/
def Cell.isStr : Cell → Bool
  | .str _ => true
  | _ => false

/-- A dataframe: an ordered list of named columns. -/
structure Frame where
  cols : List (String × List Cell)
deriving DecidableEq, Repr

/-- The column names, in order. -/
def Frame.colNames (f : Frame) : List String := f.cols.map Prod.fst

/-- Membership test on column names (`col in df.columns`). -/
def Frame.hasCol (f : Frame) (n : String) : Bool := f.colNames.contains n

/-- The cells of the (first) column named `n`; `[]` if absent. -/
def Frame.getCol (f : Frame) (n : String) : List Cell :=
  match f.cols.find? (fun p => p.1 == n) with
  | some p => p.2
  | none => []

/-- Helper for `Frame.setCol`: replace the first column named `n`, or
append a new one (pandas `df[n] = cells`). -/
def setColAux (n : String) (cs : List Cell) : List (String × List Cell) → List (String × List Cell)
  | [] => [(n, cs)]
  | p :: rest => if p.1 = n then (n, cs) :: rest else p :: setColAux n cs rest

/-- `df[n] = cells`: overwrite the column in place or append it. -/
def Frame.setCol (f : Frame) (n : String) (cs : List Cell) : Frame :=
  ⟨setColAux n cs f.cols⟩

/-- Number of rows: length of the first column (all columns agree on a
well-formed frame). -/
def Frame.nrows (f : Frame) : Nat :=
  match f.cols with
  | [] => 0
  | p :: _ => p.2.length

/-- Well-formedness: every column has the same length. -/
def Frame.Wf (f : Frame) : Prop := ∀ p ∈ f.cols, p.2.length = f.nrows

instance (f : Frame) : Decidable f.Wf := by
  unfold Frame.Wf; infer_instance

/-! ### Configuration (the `CFG` dictionary) -/

/-- `CFG["TPS_CHEAT_MIN"]`. -/
def TPS_CHEAT_MIN : ℚ := 97

/-- Lower bound of `CFG["lambda_range"]`. -/
def lambda_lo : ℚ := 80/100

/-- Upper bound of `CFG["lambda_range"]`. -/
def lambda_hi : ℚ := 92/100

/-- Lower bound of `CFG["fuel_range"]`. -/
def fuel_lo : ℚ := 317

/-- Upper bound of `CFG["fuel_range"]`. -/
def fuel_hi : ℚ := 372

/-- `CFG["ambient_offset"]`. -/
def ambient_offset : ℚ := 15

/-- `CFG["cheat_delay_sec"]`. -/
def cheat_delay_sec : ℚ := 1/2

/-! ### Vectorized pandas operations on columns -/

/-- One cell of `series >= q`: `False` on `NaN` (pandas semantics). -/
def cellGeB (c : Cell) (q : ℚ) : Bool :=
  match c with
  | .num p => decide (q ≤ p)
  | _ => false

/-- One cell of `series <= q`: `False` on `NaN`. -/
def cellLeB (c : Cell) (q : ℚ) : Bool :=
  match c with
  | .num p => decide (p ≤ q)
  | _ => false

/-- One cell of `series.between(lo, hi)` (inclusive on both ends),
`False` on `NaN`. -/
def cellBetweenB (c : Cell) (lo hi : ℚ) : Bool :=
  match c with
  | .num p => decide (lo ≤ p) && decide (p ≤ hi)
  | _ => false

/-- Whether a column holds any raw string (object dtype with a
non-numeric entry, on which pandas comparisons raise `TypeError`). -/
def hasStr (cs : List Cell) : Bool := cs.any Cell.isStr

/-- Pure part of `series >= q`. -/
def seriesGeB (cs : List Cell) (q : ℚ) : List Bool := cs.map (cellGeB · q)

/-- Pure part of `series <= q`. -/
def seriesLeB (cs : List Cell) (q : ℚ) : List Bool := cs.map (cellLeB · q)

/-- Pure part of `series.between(lo, hi)`. -/
def seriesBetweenB (cs : List Cell) (lo hi : ℚ) : List Bool :=
  cs.map (cellBetweenB · lo hi)

/-- `series >= q`: raises `TypeError` when the column holds a string. -/
def seriesGe (cs : List Cell) (q : ℚ) : Except String (List Bool) :=
  if hasStr cs then .error "TypeError" else .ok (seriesGeB cs q)

/-- `series <= q`: raises `TypeError` when the column holds a string. -/
def seriesLe (cs : List Cell) (q : ℚ) : Except String (List Bool) :=
  if hasStr cs then .error "TypeError" else .ok (seriesLeB cs q)

/-- `series.between(lo, hi)`: raises `TypeError` when the column holds a
string. -/
def seriesBetween (cs : List Cell) (lo hi : ℚ) : Except String (List Bool) :=
  if hasStr cs then .error "TypeError" else .ok (seriesBetweenB cs lo hi)

/-- The numeric values among a row's cells (pandas reductions skip
`NaN`). -/
def numVals (cs : List Cell) : List ℚ :=
  cs.filterMap fun c =>
    match c with
    | .num q => some q
    | _ => none

/-- Row mean with `skipna=True`: mean of the numeric values, `NaN` when
there are none. -/
def meanCell (cs : List Cell) : Cell :=
  let vals := numVals cs
  if vals.isEmpty then .nan else .num (vals.sum / vals.length)

/-- The `i`-th row of a list of columns (missing entries as `NaN`). -/
def rowCells (cols : List (List Cell)) (i : Nat) : List Cell :=
  cols.map fun cs => cs.getD i Cell.nan

/-- Pure part of `df[lambda_cols].mean(axis=1)` over `n` rows. -/
def rowMeansB (cols : List (List Cell)) (n : Nat) : List Cell :=
  (List.range n).map fun i => meanCell (rowCells cols i)

/-- `df[lambda_cols].mean(axis=1)`: raises `TypeError` when any involved
column holds a string. -/
def rowMeans (cols : List (List Cell)) (n : Nat) : Except String (List Cell) :=
  if cols.any hasStr then .error "TypeError" else .ok (rowMeansB cols n)

/-- Helper for `diffFillB`: differences of consecutive cells, `0` when
either neighbour is not numeric (`diff` gives `NaN` there and `fillna(0)`
replaces it). -/
def diffPairs : Cell → List Cell → List ℚ
  | _, [] => []
  | prev, c :: rest =>
    (match prev, c with
     | .num p, .num q => q - p
     | _, _ => 0) :: diffPairs c rest

/-- Pure part of `series.diff().fillna(0)`: first entry `0`. -/
def diffFillB : List Cell → List ℚ
  | [] => []
  | c :: rest => 0 :: diffPairs c rest

/-- `series.diff().fillna(0)`: raises `TypeError` when the column holds a
string. -/
def diffFill (cs : List Cell) : Except String (List ℚ) :=
  if hasStr cs then .error "TypeError" else .ok (diffFillB cs)

/-! ### The debounce loop and the qualification window -/

/-- One iteration of the debounce loop (`main.py` lines 124–130): on an
`OUT` row the accumulator grows by `dt` and the emitted flag compares it
to the delay threshold; otherwise the accumulator resets and the flag is
false. -/
def debutAux : ℚ → List (Bool × ℚ) → List Bool
  | _, [] => []
  | acc, (out, dt) :: rest =>
    if out then decide (cheat_delay_sec ≤ acc + dt) :: debutAux (acc + dt) rest
    else false :: debutAux 0 rest

/-- The `Début_triche` column: debounce over `zip(df["OUT"], df["dt"])`
starting from `acc = 0.0`. -/
def debutList (outs : List Bool) (dts : List ℚ) : List Bool :=
  debutAux 0 (outs.zip dts)

/-- Helper for `qualList`: from the second row on, the rolling two-row
maximum of the flags, negated. -/
def qualAux : Bool → List Bool → List Bool
  | _, [] => []
  | prev, b :: rest => (!(prev || b)) :: qualAux b rest

/-- The `QUALIFIÉ` column:
`~df["Début_triche"].rolling(2).max().fillna(0).astype(bool)`.
The first row's rolling maximum is `NaN`, so `fillna(0)` makes the first
entry `true` unconditionally. -/
def qualList : List Bool → List Bool
  | [] => []
  | b :: rest => true :: qualAux b rest

/-! ### `analyze_dataframe` (`main.py` lines 81–137) -/

/-- The `REQUIRED` list of `analyze_dataframe`, in source order. -/
def REQUIRED : List String :=
  ["TPS (%)", "Fuel Pressure (psi)", "IAT (°C)", "ECT (°C)", "Time (s)"]

/-- The first required column absent from the frame (the loop of lines
91–93 raises on the first miss). -/
def firstMissing (df : Frame) : Option String :=
  REQUIRED.find? fun c => !(df.hasCol c)

/-- Substring test on character lists (Python's `in` on strings). -/
def containsSub (needle : List Char) : List Char → Bool
  | [] => needle.isPrefixOf []
  | c :: rest => needle.isPrefixOf (c :: rest) || containsSub needle rest

/-- `lambda_cols = [c for c in df.columns if "lambda" in c.lower()]`
(lower-casing character by character). -/
def lambdaCols (df : Frame) : List String :=
  df.colNames.filter fun c => containsSub "lambda".toList (c.toList.map Char.toLower)

/-- Pointwise `OUT = TPS_OK & ~(Lambda_OK & Fuel_OK & IAT_OK & ECT_OK)`. -/
def outFlags (tps lam fuel iat ect : List Bool) : List Bool :=
  List.zipWith (fun t r => t && !r) tps
    (List.zipWith (fun a b => a && b)
      (List.zipWith (fun a b => a && b) lam fuel)
      (List.zipWith (fun a b => a && b) iat ect))

/-- Faithful translation of `analyze_dataframe` (`main.py` 81–137).
Errors are the raised exceptions: the two explicit `ValueError`s of the
source, plus the `TypeError` pandas raises when a compared, averaged or
differenced column holds a non-numeric string. -/
def analyze_dataframe (df : Frame) (ambient_temp : ℚ) : Except String Frame := do
  match firstMissing df with
  | some c => throw ("Colonne manquante : " ++ c)
  | none =>
    let lambda_cols := lambdaCols df
    if lambda_cols.isEmpty then
      throw "Aucune colonne Lambda détectée dans le fichier"
    else
      let lam ← rowMeans (lambda_cols.map df.getCol) df.nrows
      let df1 := df.setCol "Lambda" lam
      let tps_ok ← seriesGe (df1.getCol "TPS (%)") TPS_CHEAT_MIN
      let lambda_ok ← seriesBetween (df1.getCol "Lambda") lambda_lo lambda_hi
      let fuel_ok ← seriesBetween (df1.getCol "Fuel Pressure (psi)") fuel_lo fuel_hi
      let iat_ok ← seriesLe (df1.getCol "IAT (°C)") (ambient_temp + ambient_offset)
      let ect_ok ← seriesLe (df1.getCol "ECT (°C)") (ambient_temp + ambient_offset)
      let df2 := ((((df1.setCol "TPS_OK" (tps_ok.map Cell.bool)).setCol
        "Lambda_OK" (lambda_ok.map Cell.bool)).setCol
        "Fuel_OK" (fuel_ok.map Cell.bool)).setCol
        "IAT_OK" (iat_ok.map Cell.bool)).setCol
        "ECT_OK" (ect_ok.map Cell.bool)
      let out := outFlags tps_ok lambda_ok fuel_ok iat_ok ect_ok
      let df3 := df2.setCol "OUT" (out.map Cell.bool)
      let dt ← diffFill (df3.getCol "Time (s)")
      let df4 := df3.setCol "dt" (dt.map Cell.num)
      let debut := debutList out dt
      let df5 := df4.setCol "Début_triche" (debut.map Cell.bool)
      let df6 := df5.setCol "QUALIFIÉ" ((qualList debut).map Cell.bool)
      return df6

/-! ### The verdict reduction (`upload`, `main.py` lines 158–164) -/

/-- Round half to even (the rounding of Python's `format`). -/
def roundHalfEven (q : ℚ) : ℤ :=
  let f := ⌊q⌋
  if q - f < 1/2 then f
  else if (1:ℚ)/2 < q - f then f + 1
  else if f % 2 = 0 then f else f + 1

/-- Two-digit decimal padding. -/
def pad2 (n : Nat) : String := if n < 10 then "0" ++ toString n else toString n

/-- Python's `f"{q:.2f}"` on an exact rational value. -/
def fmt2 (q : ℚ) : String :=
  let n := roundHalfEven (q * 100)
  let sign := if n < 0 ∨ (n = 0 ∧ q < 0) then "-" else ""
  sign ++ toString (n.natAbs / 100) ++ "." ++ pad2 (n.natAbs % 100)

/-- Formatting a cell with `:.2f` (a `NaN` prints as `nan`; Python's
booleans format as `1.00`/`0.00`; a raw string would raise, which cannot
happen on the annotated frame's `Time (s)` column). -/
def fmtCell : Cell → String
  | .num q => fmt2 q
  | .nan => "nan"
  | .bool b => if b then fmt2 1 else fmt2 0
  | .str s => s

/-- Index of the first row whose cell is the boolean `true`
(`df[df["Début_triche"]]` keeps input order; `.iloc[0]` takes the first
kept row). -/
def firstTrueIdx : List Cell → Option Nat
  | [] => none
  | c :: rest =>
    if c == Cell.bool true then some 0 else (firstTrueIdx rest).map (· + 1)

/-- The verdict reduction of `upload` (`main.py` 158–164) on the
annotated frame. -/
def verdict (df : Frame) : String :=
  match firstTrueIdx (df.getCol "Début_triche") with
  | none => "PASS"
  | some i => "CHEAT – Début à " ++ fmtCell ((df.getCol "Time (s)").getD i Cell.nan) ++ " s"

/-! ### Basic frame lemmas -/

theorem find?_setColAux_same (n : String) (cs : List Cell)
    (l : List (String × List Cell)) :
    List.find? (fun p => p.1 == n) (setColAux n cs l) = some (n, cs) := by
  induction l with
  | nil =>
    simp only [setColAux]
    exact List.find?_cons_of_pos _ (by simp)
  | cons q rest ih =>
    by_cases hq : q.1 = n
    · simp only [setColAux, if_pos hq]
      exact List.find?_cons_of_pos _ (by simp)
    · simp only [setColAux, if_neg hq]
      rw [List.find?_cons_of_neg _ (by simpa using hq), ih]

theorem getCol_setCol_same (f : Frame) (n : String) (cs : List Cell) :
    (f.setCol n cs).getCol n = cs := by
  unfold Frame.setCol Frame.getCol
  rw [find?_setColAux_same]

theorem find?_setColAux_ne {n m : String} (h : m ≠ n) (cs : List Cell)
    (l : List (String × List Cell)) :
    List.find? (fun p => p.1 == m) (setColAux n cs l) =
      List.find? (fun p => p.1 == m) l := by
  induction l with
  | nil =>
    simp only [setColAux, List.find?_nil]
    rw [List.find?_cons_of_neg _ (by simpa using Ne.symm h), List.find?_nil]
  | cons q rest ih =>
    by_cases hq : q.1 = n
    · simp only [setColAux, if_pos hq]
      rw [List.find?_cons_of_neg _ (by simpa using Ne.symm h),
        List.find?_cons_of_neg _ (by simp [hq]; exact Ne.symm h)]
    · simp only [setColAux, if_neg hq]
      by_cases hm : q.1 = m
      · rw [List.find?_cons_of_pos _ (by simpa using hm),
          List.find?_cons_of_pos _ (by simpa using hm)]
      · rw [List.find?_cons_of_neg _ (by simpa using hm),
          List.find?_cons_of_neg _ (by simpa using hm), ih]

theorem getCol_setCol_ne (f : Frame) {n m : String} (cs : List Cell) (h : m ≠ n) :
    (f.setCol n cs).getCol m = f.getCol m := by
  unfold Frame.setCol Frame.getCol
  rw [find?_setColAux_ne h]

theorem hasCol_exists {f : Frame} {n : String} (h : f.hasCol n = true) :
    ∃ cs, (n, cs) ∈ f.cols ∧ f.getCol n = cs := by
  unfold Frame.hasCol Frame.colNames at h
  unfold Frame.getCol
  have key : ∀ l : List (String × List Cell), (l.map Prod.fst).contains n = true →
      ∃ cs, (n, cs) ∈ l ∧
        (match List.find? (fun p => p.1 == n) l with
         | some p => p.2
         | none => []) = cs := by
    intro l
    induction l with
    | nil => intro hl; simp at hl
    | cons q rest ih =>
      intro hl
      by_cases hq : q.1 = n
      · refine ⟨q.2, List.mem_cons.mpr (Or.inl ?_), ?_⟩
        · cases q with
          | mk a b => simp_all
        · rw [List.find?_cons_of_pos _ (by simpa using hq)]
      · have h' : (rest.map Prod.fst).contains n = true := by
          simp only [List.map_cons, List.contains_cons, Bool.or_eq_true,
            beq_iff_eq] at hl
          rcases hl with h1 | h1
          · exact absurd h1.symm hq
          · simpa using h1
        obtain ⟨cs, hmem, hget⟩ := ih h'
        refine ⟨cs, List.mem_cons_of_mem q hmem, ?_⟩
        rw [List.find?_cons_of_neg _ (by simpa using hq)]
        exact hget
  exact key f.cols h

theorem length_getCol {f : Frame} {n : String} (hwf : f.Wf) (h : f.hasCol n = true) :
    (f.getCol n).length = f.nrows := by
  obtain ⟨cs, hmem, hget⟩ := hasCol_exists h
  rw [hget]
  exact hwf (n, cs) hmem

theorem nrows_setCol {f : Frame} {cs : List Cell} (n : String)
    (h : cs.length = f.nrows) : (f.setCol n cs).nrows = f.nrows := by
  have hn : f.nrows = match f.cols with
    | [] => 0
    | p :: _ => p.2.length := rfl
  unfold Frame.setCol Frame.nrows
  cases hf : f.cols with
  | nil =>
    simp only [setColAux]
    rw [hn, hf] at h
    simpa using h
  | cons p rest =>
    by_cases hp : p.1 = n
    · simp only [setColAux, if_pos hp]
      rw [hn, hf] at h
      simpa using h
    · simp only [setColAux, if_neg hp]

theorem mem_setColAux {n : String} {cs : List Cell} {l : List (String × List Cell)}
    {p : String × List Cell} (hp : p ∈ setColAux n cs l) : p = (n, cs) ∨ p ∈ l := by
  induction l with
  | nil => simpa [setColAux] using hp
  | cons q rest ih =>
    by_cases hq : q.1 = n
    · simp only [setColAux, if_pos hq, List.mem_cons] at hp
      rcases hp with hp | hp
      · exact Or.inl hp
      · exact Or.inr (List.mem_cons_of_mem q hp)
    · simp only [setColAux, if_neg hq, List.mem_cons] at hp
      rcases hp with hp | hp
      · exact Or.inr (hp ▸ List.mem_cons_self q rest)
      · rcases ih hp with h1 | h1
        · exact Or.inl h1
        · exact Or.inr (List.mem_cons_of_mem q h1)

theorem Wf_setCol {f : Frame} {cs : List Cell} (n : String)
    (hwf : f.Wf) (h : cs.length = f.nrows) : (f.setCol n cs).Wf := by
  intro p hp
  rw [nrows_setCol n h]
  rcases mem_setColAux hp with h1 | h1
  · subst h1; exact h
  · exact hwf p h1

/-! ### Pure form of the successful analysis -/

/-- The annotated frame a successful `analyze_dataframe` run returns:
the same chain of column assignments, with the pure values of the pandas
operations. -/
def buildAnnotated (df : Frame) (amb : ℚ) : Frame :=
  let lam := rowMeansB ((lambdaCols df).map df.getCol) df.nrows
  let df1 := df.setCol "Lambda" lam
  let tps_ok := seriesGeB (df1.getCol "TPS (%)") TPS_CHEAT_MIN
  let lambda_ok := seriesBetweenB (df1.getCol "Lambda") lambda_lo lambda_hi
  let fuel_ok := seriesBetweenB (df1.getCol "Fuel Pressure (psi)") fuel_lo fuel_hi
  let iat_ok := seriesLeB (df1.getCol "IAT (°C)") (amb + ambient_offset)
  let ect_ok := seriesLeB (df1.getCol "ECT (°C)") (amb + ambient_offset)
  let df2 := ((((df1.setCol "TPS_OK" (tps_ok.map Cell.bool)).setCol
    "Lambda_OK" (lambda_ok.map Cell.bool)).setCol
    "Fuel_OK" (fuel_ok.map Cell.bool)).setCol
    "IAT_OK" (iat_ok.map Cell.bool)).setCol
    "ECT_OK" (ect_ok.map Cell.bool)
  let out := outFlags tps_ok lambda_ok fuel_ok iat_ok ect_ok
  let df3 := df2.setCol "OUT" (out.map Cell.bool)
  let dt := diffFillB (df3.getCol "Time (s)")
  let df4 := df3.setCol "dt" (dt.map Cell.num)
  let debut := debutList out dt
  let df5 := df4.setCol "Début_triche" (debut.map Cell.bool)
  df5.setCol "QUALIFIÉ" ((qualList debut).map Cell.bool)

/-- The conditions under which `analyze_dataframe` raises nothing:
required columns present, a lambda column found, and no raw string in
any column the analysis compares, averages or differences. -/
def inputClean (df : Frame) : Bool :=
  (firstMissing df).isNone &&
  !(lambdaCols df).isEmpty &&
  !((lambdaCols df).map df.getCol).any hasStr &&
  !hasStr (df.getCol "TPS (%)") &&
  !hasStr (df.getCol "Fuel Pressure (psi)") &&
  !hasStr (df.getCol "IAT (°C)") &&
  !hasStr (df.getCol "ECT (°C)") &&
  !hasStr (df.getCol "Time (s)")

theorem isStr_meanCell (cs : List Cell) : (meanCell cs).isStr = false := by
  unfold meanCell
  by_cases h : (numVals cs).isEmpty <;> simp [h, Cell.isStr]

theorem hasStr_rowMeansB (cols : List (List Cell)) (n : Nat) :
    hasStr (rowMeansB cols n) = false := by
  unfold hasStr rowMeansB
  rw [List.any_eq_false]
  intro c hc
  simp only [List.mem_map] at hc
  obtain ⟨i, _, rfl⟩ := hc
  simp [isStr_meanCell]

theorem getCol_setCol_of_ne (f : Frame) {n m : String} (cs : List Cell)
    (h : ¬ m = n) : (f.setCol n cs).getCol m = f.getCol m :=
  getCol_setCol_ne f cs h

theorem analyze_clean_eq (df : Frame) (amb : ℚ) (h : inputClean df = true) :
    analyze_dataframe df amb = .ok (buildAnnotated df amb) := by
  simp only [inputClean, Bool.and_eq_true, Bool.not_eq_true',
    Option.isNone_iff_eq_none] at h
  obtain ⟨⟨⟨⟨⟨⟨⟨h1, h2⟩, h3⟩, h4⟩, h5⟩, h6⟩, h7⟩, h8⟩ := h
  unfold analyze_dataframe buildAnnotated
  rw [h1]
  simp only [h2, Bool.false_eq_true, if_false, rowMeans, seriesGe, seriesBetween,
    seriesLe, diffFill, h3, getCol_setCol_of_ne, getCol_setCol_same,
    hasStr_rowMeansB, h4, h5, h6, h7, h8, ite_false, Bind.bind, Except.bind,
    String.reduceEq, not_false_eq_true, reduceIte, bind_pure_comp, Except.map_ok,
    pure, Except.pure]

theorem analyze_not_clean (df : Frame) (amb : ℚ) (h : inputClean df = false) :
    ∃ e, analyze_dataframe df amb = .error e := by
  unfold analyze_dataframe
  cases hm : firstMissing df with
  | some c => exact ⟨_, rfl⟩
  | none =>
  cases hl : (lambdaCols df).isEmpty with
  | true =>
    refine ⟨"Aucune colonne Lambda détectée dans le fichier", ?_⟩
    rw [if_pos hl]
    exact rfl
  | false =>
  cases h3 : ((lambdaCols df).map df.getCol).any hasStr with
  | true =>
    refine ⟨"TypeError", ?_⟩
    simp [hl, rowMeans, h3, Bind.bind, Except.bind]
  | false =>
  cases h4 : hasStr (df.getCol "TPS (%)") with
  | true =>
    refine ⟨"TypeError", ?_⟩
    simp [hl, rowMeans, h3, seriesGe, h4, getCol_setCol_of_ne, Bind.bind,
      Except.bind]
  | false =>
  cases h5 : hasStr (df.getCol "Fuel Pressure (psi)") with
  | true =>
    refine ⟨"TypeError", ?_⟩
    simp [hl, rowMeans, h3, seriesGe, seriesBetween, h4, h5, hasStr_rowMeansB,
      getCol_setCol_of_ne, getCol_setCol_same, Bind.bind, Except.bind]
  | false =>
  cases h6 : hasStr (df.getCol "IAT (°C)") with
  | true =>
    refine ⟨"TypeError", ?_⟩
    simp [hl, rowMeans, h3, seriesGe, seriesBetween, seriesLe, h4, h5, h6,
      hasStr_rowMeansB, getCol_setCol_of_ne, getCol_setCol_same, Bind.bind,
      Except.bind]
  | false =>
  cases h7 : hasStr (df.getCol "ECT (°C)") with
  | true =>
    refine ⟨"TypeError", ?_⟩
    simp [hl, rowMeans, h3, seriesGe, seriesBetween, seriesLe, h4, h5, h6, h7,
      hasStr_rowMeansB, getCol_setCol_of_ne, getCol_setCol_same, Bind.bind,
      Except.bind]
  | false =>
  cases h8 : hasStr (df.getCol "Time (s)") with
  | true =>
    refine ⟨"TypeError", ?_⟩
    simp [hl, rowMeans, h3, seriesGe, seriesBetween, seriesLe, diffFill, h4, h5,
      h6, h7, h8, hasStr_rowMeansB, getCol_setCol_of_ne, getCol_setCol_same,
      Bind.bind, Except.bind]
  | false =>
    exfalso
    unfold inputClean at h
    simp [hm, hl, h3, h4, h5, h6, h7, h8] at h

theorem analyze_ok_elim {df : Frame} {amb : ℚ} {g : Frame}
    (h : analyze_dataframe df amb = .ok g) :
    inputClean df = true ∧ g = buildAnnotated df amb := by
  cases hc : inputClean df with
  | true =>
    refine ⟨rfl, ?_⟩
    rw [analyze_clean_eq df amb hc] at h
    exact (Except.ok.inj h).symm
  | false =>
    obtain ⟨e, he⟩ := analyze_not_clean df amb hc
    rw [he] at h
    exact absurd h (by simp)

/-! ### The derived columns as functions of the input frame -/

/-- The derived `Lambda` column. -/
def lamColOf (df : Frame) : List Cell :=
  rowMeansB ((lambdaCols df).map df.getCol) df.nrows

/-- The `TPS_OK` column. -/
def tpsOkOf (df : Frame) : List Bool :=
  seriesGeB (df.getCol "TPS (%)") TPS_CHEAT_MIN

/-- The `Lambda_OK` column. -/
def lambdaOkOf (df : Frame) : List Bool :=
  seriesBetweenB (lamColOf df) lambda_lo lambda_hi

/-- The `Fuel_OK` column. -/
def fuelOkOf (df : Frame) : List Bool :=
  seriesBetweenB (df.getCol "Fuel Pressure (psi)") fuel_lo fuel_hi

/-- The `IAT_OK` column. -/
def iatOkOf (df : Frame) (amb : ℚ) : List Bool :=
  seriesLeB (df.getCol "IAT (°C)") (amb + ambient_offset)

/-- The `ECT_OK` column. -/
def ectOkOf (df : Frame) (amb : ℚ) : List Bool :=
  seriesLeB (df.getCol "ECT (°C)") (amb + ambient_offset)

/-- The `OUT` column. -/
def outOf (df : Frame) (amb : ℚ) : List Bool :=
  outFlags (tpsOkOf df) (lambdaOkOf df) (fuelOkOf df) (iatOkOf df amb) (ectOkOf df amb)

/-- The `dt` column. -/
def dtOf (df : Frame) : List ℚ := diffFillB (df.getCol "Time (s)")

/-- The `Début_triche` column. -/
def debutOf (df : Frame) (amb : ℚ) : List Bool := debutList (outOf df amb) (dtOf df)

/-- The `QUALIFIÉ` column. -/
def qualOf (df : Frame) (amb : ℚ) : List Bool := qualList (debutOf df amb)

/-- The ten column names `analyze_dataframe` writes. -/
def derivedNames : List String :=
  ["Lambda", "TPS_OK", "Lambda_OK", "Fuel_OK", "IAT_OK", "ECT_OK", "OUT", "dt",
   "Début_triche", "QUALIFIÉ"]

theorem build_getCol_Lambda (df : Frame) (amb : ℚ) :
    (buildAnnotated df amb).getCol "Lambda" = lamColOf df := by
  unfold buildAnnotated lamColOf
  simp only [getCol_setCol_same, getCol_setCol_of_ne, String.reduceEq,
    not_false_eq_true]

theorem build_getCol_TPS_OK (df : Frame) (amb : ℚ) :
    (buildAnnotated df amb).getCol "TPS_OK" = (tpsOkOf df).map Cell.bool := by
  unfold buildAnnotated tpsOkOf
  simp only [getCol_setCol_same, getCol_setCol_of_ne, String.reduceEq,
    not_false_eq_true]

theorem build_getCol_Lambda_OK (df : Frame) (amb : ℚ) :
    (buildAnnotated df amb).getCol "Lambda_OK" = (lambdaOkOf df).map Cell.bool := by
  unfold buildAnnotated lambdaOkOf lamColOf
  simp only [getCol_setCol_same, getCol_setCol_of_ne, String.reduceEq,
    not_false_eq_true]

theorem build_getCol_Fuel_OK (df : Frame) (amb : ℚ) :
    (buildAnnotated df amb).getCol "Fuel_OK" = (fuelOkOf df).map Cell.bool := by
  unfold buildAnnotated fuelOkOf
  simp only [getCol_setCol_same, getCol_setCol_of_ne, String.reduceEq,
    not_false_eq_true]

theorem build_getCol_IAT_OK (df : Frame) (amb : ℚ) :
    (buildAnnotated df amb).getCol "IAT_OK" = (iatOkOf df amb).map Cell.bool := by
  unfold buildAnnotated iatOkOf
  simp only [getCol_setCol_same, getCol_setCol_of_ne, String.reduceEq,
    not_false_eq_true]

theorem build_getCol_ECT_OK (df : Frame) (amb : ℚ) :
    (buildAnnotated df amb).getCol "ECT_OK" = (ectOkOf df amb).map Cell.bool := by
  unfold buildAnnotated ectOkOf
  simp only [getCol_setCol_same, getCol_setCol_of_ne, String.reduceEq,
    not_false_eq_true]

theorem build_getCol_OUT (df : Frame) (amb : ℚ) :
    (buildAnnotated df amb).getCol "OUT" = (outOf df amb).map Cell.bool := by
  unfold buildAnnotated outOf tpsOkOf lambdaOkOf fuelOkOf iatOkOf ectOkOf lamColOf
  simp only [getCol_setCol_same, getCol_setCol_of_ne, String.reduceEq,
    not_false_eq_true]

theorem build_getCol_dt (df : Frame) (amb : ℚ) :
    (buildAnnotated df amb).getCol "dt" = (dtOf df).map Cell.num := by
  unfold buildAnnotated dtOf
  simp only [getCol_setCol_same, getCol_setCol_of_ne, String.reduceEq,
    not_false_eq_true]

theorem build_getCol_debut (df : Frame) (amb : ℚ) :
    (buildAnnotated df amb).getCol "Début_triche" = (debutOf df amb).map Cell.bool := by
  unfold buildAnnotated debutOf outOf tpsOkOf lambdaOkOf fuelOkOf iatOkOf ectOkOf
    lamColOf dtOf
  simp only [getCol_setCol_same, getCol_setCol_of_ne, String.reduceEq,
    not_false_eq_true]

theorem build_getCol_qual (df : Frame) (amb : ℚ) :
    (buildAnnotated df amb).getCol "QUALIFIÉ" = (qualOf df amb).map Cell.bool := by
  unfold buildAnnotated qualOf debutOf outOf tpsOkOf lambdaOkOf fuelOkOf iatOkOf
    ectOkOf lamColOf dtOf
  simp only [getCol_setCol_same, getCol_setCol_of_ne, String.reduceEq,
    not_false_eq_true]

/-! ### Lengths -/

theorem length_seriesGeB (cs : List Cell) (q : ℚ) :
    (seriesGeB cs q).length = cs.length := by simp [seriesGeB]

theorem length_seriesLeB (cs : List Cell) (q : ℚ) :
    (seriesLeB cs q).length = cs.length := by simp [seriesLeB]

theorem length_seriesBetweenB (cs : List Cell) (lo hi : ℚ) :
    (seriesBetweenB cs lo hi).length = cs.length := by simp [seriesBetweenB]

theorem length_rowMeansB (cols : List (List Cell)) (n : Nat) :
    (rowMeansB cols n).length = n := by simp [rowMeansB]

theorem length_diffPairs (c : Cell) (l : List Cell) :
    (diffPairs c l).length = l.length := by
  induction l generalizing c with
  | nil => simp [diffPairs]
  | cons d rest ih => simp [diffPairs, ih]

theorem length_diffFillB (cs : List Cell) : (diffFillB cs).length = cs.length := by
  cases cs <;> simp [diffFillB, length_diffPairs]

theorem length_debutAux (a : ℚ) (l : List (Bool × ℚ)) :
    (debutAux a l).length = l.length := by
  induction l generalizing a with
  | nil => simp [debutAux]
  | cons p rest ih =>
    cases p with
    | mk out dt =>
      by_cases h : out <;> simp [debutAux, h, ih]

theorem length_debutList (outs : List Bool) (dts : List ℚ) :
    (debutList outs dts).length = min outs.length dts.length := by
  simp [debutList, length_debutAux]

theorem length_qualAux (b : Bool) (l : List Bool) :
    (qualAux b l).length = l.length := by
  induction l generalizing b with
  | nil => simp [qualAux]
  | cons c rest ih => simp [qualAux, ih]

theorem length_qualList (l : List Bool) : (qualList l).length = l.length := by
  cases l <;> simp [qualList, length_qualAux]

theorem length_outFlags {n : Nat} {a b c d e : List Bool} (ha : a.length = n)
    (hb : b.length = n) (hc : c.length = n) (hd : d.length = n)
    (he : e.length = n) : (outFlags a b c d e).length = n := by
  simp [outFlags, ha, hb, hc, hd, he]

/-! ### Column presence on clean inputs -/

theorem clean_firstMissing {df : Frame} (h : inputClean df = true) :
    firstMissing df = none := by
  simp only [inputClean, Bool.and_eq_true, Option.isNone_iff_eq_none] at h
  exact h.1.1.1.1.1.1.1

theorem clean_hasCol_required {df : Frame} (h : inputClean df = true)
    {c : String} (hc : c ∈ REQUIRED) : df.hasCol c = true := by
  have h1 := clean_firstMissing h
  unfold firstMissing at h1
  have := List.find?_eq_none.mp h1 c hc
  simpa using this

theorem hasCol_of_mem_lambdaCols {df : Frame} {n : String}
    (hn : n ∈ lambdaCols df) : df.hasCol n = true := by
  unfold lambdaCols at hn
  have := List.mem_of_mem_filter hn
  unfold Frame.hasCol
  exact List.elem_eq_true_of_mem this

theorem length_lamColOf (df : Frame) : (lamColOf df).length = df.nrows :=
  length_rowMeansB _ _

theorem length_tpsOkOf {df : Frame} (hwf : df.Wf) (hcl : inputClean df = true) :
    (tpsOkOf df).length = df.nrows := by
  rw [tpsOkOf, length_seriesGeB]
  exact length_getCol hwf (clean_hasCol_required hcl (by simp [REQUIRED]))

theorem length_lambdaOkOf (df : Frame) : (lambdaOkOf df).length = df.nrows := by
  rw [lambdaOkOf, length_seriesBetweenB, length_lamColOf]

theorem length_fuelOkOf {df : Frame} (hwf : df.Wf) (hcl : inputClean df = true) :
    (fuelOkOf df).length = df.nrows := by
  rw [fuelOkOf, length_seriesBetweenB]
  exact length_getCol hwf (clean_hasCol_required hcl (by simp [REQUIRED]))

theorem length_iatOkOf {df : Frame} (amb : ℚ) (hwf : df.Wf)
    (hcl : inputClean df = true) : (iatOkOf df amb).length = df.nrows := by
  rw [iatOkOf, length_seriesLeB]
  exact length_getCol hwf (clean_hasCol_required hcl (by simp [REQUIRED]))

theorem length_ectOkOf {df : Frame} (amb : ℚ) (hwf : df.Wf)
    (hcl : inputClean df = true) : (ectOkOf df amb).length = df.nrows := by
  rw [ectOkOf, length_seriesLeB]
  exact length_getCol hwf (clean_hasCol_required hcl (by simp [REQUIRED]))

theorem length_timeCol {df : Frame} (hwf : df.Wf) (hcl : inputClean df = true) :
    (df.getCol "Time (s)").length = df.nrows :=
  length_getCol hwf (clean_hasCol_required hcl (by simp [REQUIRED]))

theorem length_outOf {df : Frame} (amb : ℚ) (hwf : df.Wf)
    (hcl : inputClean df = true) : (outOf df amb).length = df.nrows :=
  length_outFlags (length_tpsOkOf hwf hcl) (length_lambdaOkOf df)
    (length_fuelOkOf hwf hcl) (length_iatOkOf amb hwf hcl)
    (length_ectOkOf amb hwf hcl)

theorem length_dtOf {df : Frame} (hwf : df.Wf) (hcl : inputClean df = true) :
    (dtOf df).length = df.nrows := by
  rw [dtOf, length_diffFillB]
  exact length_timeCol hwf hcl

theorem length_debutOf {df : Frame} (amb : ℚ) (hwf : df.Wf)
    (hcl : inputClean df = true) : (debutOf df amb).length = df.nrows := by
  rw [debutOf, length_debutList, length_outOf amb hwf hcl, length_dtOf hwf hcl,
    min_self]

theorem length_qualOf {df : Frame} (amb : ℚ) (hwf : df.Wf)
    (hcl : inputClean df = true) : (qualOf df amb).length = df.nrows := by
  rw [qualOf, length_qualList]
  exact length_debutOf amb hwf hcl

/-! ### Shape of the annotated frame -/

theorem buildAnnotated_eq (df : Frame) (amb : ℚ) :
    buildAnnotated df amb =
      (((((((((df.setCol "Lambda" (lamColOf df)).setCol
        "TPS_OK" ((tpsOkOf df).map Cell.bool)).setCol
        "Lambda_OK" ((lambdaOkOf df).map Cell.bool)).setCol
        "Fuel_OK" ((fuelOkOf df).map Cell.bool)).setCol
        "IAT_OK" ((iatOkOf df amb).map Cell.bool)).setCol
        "ECT_OK" ((ectOkOf df amb).map Cell.bool)).setCol
        "OUT" ((outOf df amb).map Cell.bool)).setCol
        "dt" ((dtOf df).map Cell.num)).setCol
        "Début_triche" ((debutOf df amb).map Cell.bool)).setCol
        "QUALIFIÉ" ((qualOf df amb).map Cell.bool) := by
  unfold buildAnnotated
  simp only [qualOf, debutOf, outOf, dtOf, lambdaOkOf, tpsOkOf, fuelOkOf,
    iatOkOf, ectOkOf, lamColOf]
  simp only [getCol_setCol_same, getCol_setCol_of_ne, String.reduceEq,
    not_false_eq_true]

theorem build_nrows_Wf (df : Frame) (amb : ℚ) (hwf : df.Wf)
    (hcl : inputClean df = true) :
    (buildAnnotated df amb).nrows = df.nrows ∧ (buildAnnotated df amb).Wf := by
  rw [buildAnnotated_eq]
  have n0 := df.nrows
  have s1 : ((lamColOf df)).length = df.nrows := length_lamColOf df
  have s2 : ((tpsOkOf df).map Cell.bool).length = df.nrows := by
    simpa using length_tpsOkOf hwf hcl
  have s3 : ((lambdaOkOf df).map Cell.bool).length = df.nrows := by
    simpa using length_lambdaOkOf df
  have s4 : ((fuelOkOf df).map Cell.bool).length = df.nrows := by
    simpa using length_fuelOkOf hwf hcl
  have s5 : ((iatOkOf df amb).map Cell.bool).length = df.nrows := by
    simpa using length_iatOkOf amb hwf hcl
  have s6 : ((ectOkOf df amb).map Cell.bool).length = df.nrows := by
    simpa using length_ectOkOf amb hwf hcl
  have s7 : ((outOf df amb).map Cell.bool).length = df.nrows := by
    simpa using length_outOf amb hwf hcl
  have s8 : ((dtOf df).map Cell.num).length = df.nrows := by
    simpa using length_dtOf hwf hcl
  have s9 : ((debutOf df amb).map Cell.bool).length = df.nrows := by
    simpa using length_debutOf amb hwf hcl
  have s10 : ((qualOf df amb).map Cell.bool).length = df.nrows := by
    simpa using length_qualOf amb hwf hcl
  have h1n := nrows_setCol (f := df) "Lambda" s1
  have h1w := Wf_setCol (f := df) "Lambda" hwf s1
  have h2n := nrows_setCol (f := df.setCol "Lambda" (lamColOf df)) "TPS_OK" (by rw [h1n]; exact s2)
  have h2w := Wf_setCol (f := df.setCol "Lambda" (lamColOf df)) "TPS_OK" h1w (by rw [h1n]; exact s2)
  set f2 := (df.setCol "Lambda" (lamColOf df)).setCol "TPS_OK" ((tpsOkOf df).map Cell.bool) with hf2
  have h2n' : f2.nrows = df.nrows := by rw [hf2, h2n, h1n]
  have h3n := nrows_setCol (f := f2) "Lambda_OK" (by rw [h2n']; exact s3)
  have h3w := Wf_setCol (f := f2) "Lambda_OK" h2w (by rw [h2n']; exact s3)
  set f3 := f2.setCol "Lambda_OK" ((lambdaOkOf df).map Cell.bool) with hf3
  have h3n' : f3.nrows = df.nrows := by rw [hf3, h3n, h2n']
  have h4n := nrows_setCol (f := f3) "Fuel_OK" (by rw [h3n']; exact s4)
  have h4w := Wf_setCol (f := f3) "Fuel_OK" h3w (by rw [h3n']; exact s4)
  set f4 := f3.setCol "Fuel_OK" ((fuelOkOf df).map Cell.bool) with hf4
  have h4n' : f4.nrows = df.nrows := by rw [hf4, h4n, h3n']
  have h5n := nrows_setCol (f := f4) "IAT_OK" (by rw [h4n']; exact s5)
  have h5w := Wf_setCol (f := f4) "IAT_OK" h4w (by rw [h4n']; exact s5)
  set f5 := f4.setCol "IAT_OK" ((iatOkOf df amb).map Cell.bool) with hf5
  have h5n' : f5.nrows = df.nrows := by rw [hf5, h5n, h4n']
  have h6n := nrows_setCol (f := f5) "ECT_OK" (by rw [h5n']; exact s6)
  have h6w := Wf_setCol (f := f5) "ECT_OK" h5w (by rw [h5n']; exact s6)
  set f6 := f5.setCol "ECT_OK" ((ectOkOf df amb).map Cell.bool) with hf6
  have h6n' : f6.nrows = df.nrows := by rw [hf6, h6n, h5n']
  have h7n := nrows_setCol (f := f6) "OUT" (by rw [h6n']; exact s7)
  have h7w := Wf_setCol (f := f6) "OUT" h6w (by rw [h6n']; exact s7)
  set f7 := f6.setCol "OUT" ((outOf df amb).map Cell.bool) with hf7
  have h7n' : f7.nrows = df.nrows := by rw [hf7, h7n, h6n']
  have h8n := nrows_setCol (f := f7) "dt" (by rw [h7n']; exact s8)
  have h8w := Wf_setCol (f := f7) "dt" h7w (by rw [h7n']; exact s8)
  set f8 := f7.setCol "dt" ((dtOf df).map Cell.num) with hf8
  have h8n' : f8.nrows = df.nrows := by rw [hf8, h8n, h7n']
  have h9n := nrows_setCol (f := f8) "Début_triche" (by rw [h8n']; exact s9)
  have h9w := Wf_setCol (f := f8) "Début_triche" h8w (by rw [h8n']; exact s9)
  set f9 := f8.setCol "Début_triche" ((debutOf df amb).map Cell.bool) with hf9
  have h9n' : f9.nrows = df.nrows := by rw [hf9, h9n, h8n']
  have h10n := nrows_setCol (f := f9) "QUALIFIÉ" (by rw [h9n']; exact s10)
  have h10w := Wf_setCol (f := f9) "QUALIFIÉ" h9w (by rw [h9n']; exact s10)
  exact ⟨by rw [h10n, h9n'], h10w⟩

theorem build_getCol_orig (df : Frame) (amb : ℚ) {n : String}
    (h : n ∉ derivedNames) : (buildAnnotated df amb).getCol n = df.getCol n := by
  simp only [derivedNames, List.mem_cons, List.not_mem_nil, or_false, not_or] at h
  obtain ⟨e1, e2, e3, e4, e5, e6, e7, e8, e9, e10⟩ := h
  unfold buildAnnotated
  rw [getCol_setCol_ne _ _ e10, getCol_setCol_ne _ _ e9, getCol_setCol_ne _ _ e8,
    getCol_setCol_ne _ _ e7, getCol_setCol_ne _ _ e6, getCol_setCol_ne _ _ e5,
    getCol_setCol_ne _ _ e4, getCol_setCol_ne _ _ e3, getCol_setCol_ne _ _ e2,
    getCol_setCol_ne _ _ e1]

/-! ### Row-level view -/

/-- Cell of column `n` at row `i` (`NaN` when out of range). -/
def cellAt (df : Frame) (n : String) (i : Nat) : Cell :=
  (df.getCol n).getD i Cell.nan

/-- Whether the cell of a flag column at row `i` is the boolean `true`
(the truth test pandas boolean indexing applies). -/
def flagAt (df : Frame) (n : String) (i : Nat) : Bool :=
  cellAt df n i == Cell.bool true

/-- `throttle_ok` for row `i`: throttle % at least `TPS_CHEAT_MIN`. -/
def tpsOkRow (df : Frame) (i : Nat) : Bool :=
  cellGeB (cellAt df "TPS (%)" i) TPS_CHEAT_MIN

/-- The derived Lambda value of row `i`: mean of the matched lambda
columns' values at that row. -/
def lambdaRow (df : Frame) (i : Nat) : Cell :=
  meanCell (rowCells ((lambdaCols df).map df.getCol) i)

/-- `lambda_ok` for row `i`. -/
def lambdaOkRow (df : Frame) (i : Nat) : Bool :=
  cellBetweenB (lambdaRow df i) lambda_lo lambda_hi

/-- `fuel_ok` for row `i`. -/
def fuelOkRow (df : Frame) (i : Nat) : Bool :=
  cellBetweenB (cellAt df "Fuel Pressure (psi)" i) fuel_lo fuel_hi

/-- `intake_ok` for row `i`. -/
def iatOkRow (df : Frame) (amb : ℚ) (i : Nat) : Bool :=
  cellLeB (cellAt df "IAT (°C)" i) (amb + ambient_offset)

/-- `coolant_ok` for row `i`. -/
def ectOkRow (df : Frame) (amb : ℚ) (i : Nat) : Bool :=
  cellLeB (cellAt df "ECT (°C)" i) (amb + ambient_offset)

/-- The instantaneous-violation flag `OUT` for row `i`. -/
def outRow (df : Frame) (amb : ℚ) (i : Nat) : Bool :=
  tpsOkRow df i &&
    !(lambdaOkRow df i && fuelOkRow df i && iatOkRow df amb i && ectOkRow df amb i)

/-- The inter-row time delta of row `i`: `0` for the first row and when
either neighbouring elapsed-time value is missing, otherwise the raw
difference (negative when elapsed time decreases). -/
def dtRow (df : Frame) (i : Nat) : ℚ :=
  if i = 0 then 0
  else
    match cellAt df "Time (s)" (i - 1), cellAt df "Time (s)" i with
    | .num p, .num q => q - p
    | _, _ => 0

/-- The debounce accumulator after processing row `i`: on an `OUT` row it
grows by that row's `dt`, otherwise it resets to `0`. -/
def accRow (df : Frame) (amb : ℚ) : Nat → ℚ
  | 0 => if outRow df amb 0 then dtRow df 0 else 0
  | i + 1 => if outRow df amb (i + 1) then accRow df amb i + dtRow df (i + 1) else 0

/-- The confirmed-episode-start flag of row `i`: an `OUT` row whose
accumulated violation time reaches the delay threshold. -/
def debutRow (df : Frame) (amb : ℚ) (i : Nat) : Bool :=
  outRow df amb i && decide (cheat_delay_sec ≤ accRow df amb i)

/-! ### Index bridges between the column pipeline and the row view -/

theorem getD_map_bool (l : List Bool) (i : Nat) (hi : i < l.length) :
    (l.map Cell.bool).getD i Cell.nan = Cell.bool (l.getD i false) := by
  rw [List.getD_eq_getElem _ Cell.nan (by simpa using hi),
    List.getD_eq_getElem _ false hi, List.getElem_map]

theorem getD_map_num (l : List ℚ) (i : Nat) (hi : i < l.length) :
    (l.map Cell.num).getD i Cell.nan = Cell.num (l.getD i 0) := by
  rw [List.getD_eq_getElem _ Cell.nan (by simpa using hi),
    List.getD_eq_getElem _ 0 hi, List.getElem_map]

theorem lamColOf_getD {df : Frame} {i : Nat} (hi : i < df.nrows) :
    (lamColOf df).getD i Cell.nan = lambdaRow df i := by
  rw [lamColOf, rowMeansB,
    List.getD_eq_getElem _ Cell.nan (by simpa using hi),
    List.getElem_map, List.getElem_range, lambdaRow]

theorem seriesGeB_getD {cs : List Cell} {q : ℚ} {i : Nat} (hi : i < cs.length) :
    (seriesGeB cs q).getD i false = cellGeB (cs.getD i Cell.nan) q := by
  rw [seriesGeB, List.getD_eq_getElem _ false (by simpa using hi),
    List.getD_eq_getElem _ Cell.nan hi, List.getElem_map]

theorem seriesLeB_getD {cs : List Cell} {q : ℚ} {i : Nat} (hi : i < cs.length) :
    (seriesLeB cs q).getD i false = cellLeB (cs.getD i Cell.nan) q := by
  rw [seriesLeB, List.getD_eq_getElem _ false (by simpa using hi),
    List.getD_eq_getElem _ Cell.nan hi, List.getElem_map]

theorem seriesBetweenB_getD {cs : List Cell} {lo hi : ℚ} {i : Nat}
    (h : i < cs.length) :
    (seriesBetweenB cs lo hi).getD i false = cellBetweenB (cs.getD i Cell.nan) lo hi := by
  rw [seriesBetweenB, List.getD_eq_getElem _ false (by simpa using h),
    List.getD_eq_getElem _ Cell.nan h, List.getElem_map]

theorem tpsOkOf_getD {df : Frame} {i : Nat} (hwf : df.Wf)
    (hcl : inputClean df = true) (hi : i < df.nrows) :
    (tpsOkOf df).getD i false = tpsOkRow df i := by
  rw [tpsOkOf, seriesGeB_getD, tpsOkRow, cellAt]
  rw [length_getCol hwf (clean_hasCol_required hcl (by simp [REQUIRED]))]
  exact hi

theorem lambdaOkOf_getD {df : Frame} {i : Nat} (hi : i < df.nrows) :
    (lambdaOkOf df).getD i false = lambdaOkRow df i := by
  rw [lambdaOkOf, seriesBetweenB_getD, lamColOf_getD hi, lambdaOkRow]
  rw [length_lamColOf]
  exact hi

theorem fuelOkOf_getD {df : Frame} {i : Nat} (hwf : df.Wf)
    (hcl : inputClean df = true) (hi : i < df.nrows) :
    (fuelOkOf df).getD i false = fuelOkRow df i := by
  rw [fuelOkOf, seriesBetweenB_getD, fuelOkRow, cellAt]
  rw [length_getCol hwf (clean_hasCol_required hcl (by simp [REQUIRED]))]
  exact hi

theorem iatOkOf_getD {df : Frame} {amb : ℚ} {i : Nat} (hwf : df.Wf)
    (hcl : inputClean df = true) (hi : i < df.nrows) :
    (iatOkOf df amb).getD i false = iatOkRow df amb i := by
  rw [iatOkOf, seriesLeB_getD, iatOkRow, cellAt]
  rw [length_getCol hwf (clean_hasCol_required hcl (by simp [REQUIRED]))]
  exact hi

theorem ectOkOf_getD {df : Frame} {amb : ℚ} {i : Nat} (hwf : df.Wf)
    (hcl : inputClean df = true) (hi : i < df.nrows) :
    (ectOkOf df amb).getD i false = ectOkRow df amb i := by
  rw [ectOkOf, seriesLeB_getD, ectOkRow, cellAt]
  rw [length_getCol hwf (clean_hasCol_required hcl (by simp [REQUIRED]))]
  exact hi

theorem outOf_getD {df : Frame} {amb : ℚ} {i : Nat} (hwf : df.Wf)
    (hcl : inputClean df = true) (hi : i < df.nrows) :
    (outOf df amb).getD i false = outRow df amb i := by
  have l1 := length_tpsOkOf hwf hcl
  have l2 := length_lambdaOkOf df
  have l3 := length_fuelOkOf hwf hcl
  have l4 := @length_iatOkOf df amb hwf hcl
  have l5 := @length_ectOkOf df amb hwf hcl
  have hlen : i < (outOf df amb).length := by
    rw [length_outOf amb hwf hcl]; exact hi
  rw [List.getD_eq_getElem _ false hlen]
  unfold outOf outFlags
  rw [List.getElem_zipWith, List.getElem_zipWith, List.getElem_zipWith,
    List.getElem_zipWith]
  rw [outRow, ← tpsOkOf_getD hwf hcl hi, ← lambdaOkOf_getD hi,
    ← fuelOkOf_getD hwf hcl hi, ← iatOkOf_getD hwf hcl hi,
    ← ectOkOf_getD hwf hcl hi]
  rw [List.getD_eq_getElem _ false (by rw [l1]; exact hi),
    List.getD_eq_getElem _ false (by rw [l2]; exact hi),
    List.getD_eq_getElem _ false (by rw [l3]; exact hi),
    List.getD_eq_getElem _ false (by rw [l4]; exact hi),
    List.getD_eq_getElem _ false (by rw [l5]; exact hi)]
  simp [Bool.and_assoc]

theorem diffPairs_getD (prev : Cell) (l : List Cell) (i : Nat) (hi : i < l.length) :
    (diffPairs prev l).getD i 0 =
      match (prev :: l).getD i Cell.nan, l.getD i Cell.nan with
      | .num p, .num q => q - p
      | _, _ => 0 := by
  induction l generalizing prev i with
  | nil => simp at hi
  | cons d rest ih =>
    cases i with
    | zero => simp [diffPairs]
    | succ k =>
      have hk : k < rest.length := by simpa using hi
      simp only [diffPairs, List.getD_cons_succ]
      exact ih d k hk

theorem dtOf_getD {df : Frame} (hwf : df.Wf) (hcl : inputClean df = true)
    {i : Nat} (hi : i < df.nrows) : (dtOf df).getD i 0 = dtRow df i := by
  have hlen : (df.getCol "Time (s)").length = df.nrows := length_timeCol hwf hcl
  rw [dtOf]
  cases hcs : df.getCol "Time (s)" with
  | nil =>
    rw [hcs] at hlen
    simp at hlen
    omega
  | cons c rest =>
    rw [diffFillB]
    cases i with
    | zero => simp [dtRow]
    | succ k =>
      have hk : k < rest.length := by
        rw [hcs] at hlen
        simp at hlen
        omega
      rw [List.getD_cons_succ, diffPairs_getD c rest k hk]
      simp only [dtRow, Nat.succ_ne_zero, if_false, Nat.succ_sub_one, cellAt,
        hcs, List.getD_cons_succ]

/-- One step of the accumulator fold. -/
def accStep (a : ℚ) (p : Bool × ℚ) : ℚ := if p.1 then a + p.2 else 0

/-- The accumulator after folding a prefix of the zipped `(OUT, dt)`
list. -/
def accList (a : ℚ) (l : List (Bool × ℚ)) : ℚ := l.foldl accStep a

theorem debutAux_getD (l : List (Bool × ℚ)) (a : ℚ) (i : Nat) (hi : i < l.length) :
    (debutAux a l).getD i false =
      ((l.getD i (false, 0)).1 &&
        decide (cheat_delay_sec ≤ accList a (l.take (i + 1)))) := by
  induction l generalizing a i with
  | nil => simp at hi
  | cons p rest ih =>
    cases p with
    | mk out dt =>
      cases i with
      | zero =>
        by_cases hout : out
        · simp [debutAux, hout, accList, accStep]
        · simp [debutAux, hout]
      | succ k =>
        have hk : k < rest.length := by simpa using hi
        by_cases hout : out
        · simp only [debutAux, hout, if_true, List.getD_cons_succ]
          rw [ih (a + dt) k hk]
          simp [accList, List.take_succ_cons, accStep, hout]
        · simp only [debutAux, hout, Bool.false_eq_true, if_false,
            List.getD_cons_succ]
          rw [ih 0 k hk]
          simp [accList, List.take_succ_cons, accStep, hout]

theorem zip_out_dt_getElem {df : Frame} {amb : ℚ} (hwf : df.Wf)
    (hcl : inputClean df = true) {j : Nat} (hj : j < df.nrows)
    (hlen : j < ((outOf df amb).zip (dtOf df)).length) :
    ((outOf df amb).zip (dtOf df))[j] = (outRow df amb j, dtRow df j) := by
  have h1 : j < (outOf df amb).length := by
    rw [length_outOf amb hwf hcl]; exact hj
  have h2 : j < (dtOf df).length := by
    rw [length_dtOf hwf hcl]; exact hj
  rw [List.getElem_zip]
  rw [← List.getD_eq_getElem _ false h1, ← List.getD_eq_getElem _ 0 h2,
    outOf_getD hwf hcl hj, dtOf_getD hwf hcl hj]

theorem length_zip_out_dt {df : Frame} {amb : ℚ} (hwf : df.Wf)
    (hcl : inputClean df = true) :
    ((outOf df amb).zip (dtOf df)).length = df.nrows := by
  rw [List.length_zip, length_outOf amb hwf hcl, length_dtOf hwf hcl, min_self]

theorem accList_eq_accRow {df : Frame} {amb : ℚ} (hwf : df.Wf)
    (hcl : inputClean df = true) :
    ∀ i, i < df.nrows →
      accList 0 (((outOf df amb).zip (dtOf df)).take (i + 1)) = accRow df amb i := by
  intro i
  induction i with
  | zero =>
    intro hi
    have hlen : 0 < ((outOf df amb).zip (dtOf df)).length := by
      rw [length_zip_out_dt hwf hcl]; exact hi
    rw [List.take_succ, List.take_zero, List.nil_append,
      List.getElem?_eq_getElem hlen, zip_out_dt_getElem hwf hcl hi hlen]
    simp [accList, accStep, accRow]
  | succ k ih =>
    intro hi
    have hk : k < df.nrows := by omega
    have hlen : k + 1 < ((outOf df amb).zip (dtOf df)).length := by
      rw [length_zip_out_dt hwf hcl]; exact hi
    rw [List.take_succ, List.getElem?_eq_getElem hlen,
      zip_out_dt_getElem hwf hcl hi hlen]
    simp only [accList] at ih ⊢
    simp only [Option.toList]
    rw [List.foldl_append, ih hk]
    simp [accStep, accRow]

theorem debutOf_getD {df : Frame} {amb : ℚ} (hwf : df.Wf)
    (hcl : inputClean df = true) {i : Nat} (hi : i < df.nrows) :
    (debutOf df amb).getD i false = debutRow df amb i := by
  have hlen : i < ((outOf df amb).zip (dtOf df)).length := by
    rw [length_zip_out_dt hwf hcl]; exact hi
  rw [debutOf, debutList, debutAux_getD _ 0 i hlen,
    List.getD_eq_getElem _ (false, 0) hlen, zip_out_dt_getElem hwf hcl hi hlen,
    accList_eq_accRow hwf hcl i hi, debutRow]

theorem qualAux_getD (l : List Bool) (prev : Bool) (i : Nat) (hi : i < l.length) :
    (qualAux prev l).getD i false =
      !((prev :: l).getD i false || l.getD i false) := by
  induction l generalizing prev i with
  | nil => simp at hi
  | cons b rest ih =>
    cases i with
    | zero => simp [qualAux]
    | succ k =>
      have hk : k < rest.length := by simpa using hi
      simp only [qualAux, List.getD_cons_succ]
      exact ih b k hk

theorem qualOf_getD {df : Frame} {amb : ℚ} (hwf : df.Wf)
    (hcl : inputClean df = true) {i : Nat} (hi : i < df.nrows) :
    (qualOf df amb).getD i false =
      if i = 0 then true
      else !((debutOf df amb).getD (i - 1) false || (debutOf df amb).getD i false) := by
  have hdlen : (debutOf df amb).length = df.nrows := length_debutOf amb hwf hcl
  rw [qualOf]
  cases hd : debutOf df amb with
  | nil =>
    rw [hd] at hdlen
    simp at hdlen
    omega
  | cons b rest =>
    rw [qualList]
    cases i with
    | zero => simp
    | succ k =>
      have hk : k < rest.length := by
        rw [hd] at hdlen
        simp at hdlen
        omega
      rw [List.getD_cons_succ, qualAux_getD rest b k hk]
      simp only [Nat.succ_ne_zero, if_false, Nat.succ_sub_one,
        List.getD_cons_succ]

/-! ### Cells of the annotated frame -/

theorem cellAt_Lambda {df : Frame} {amb : ℚ} {g : Frame} (hwf : df.Wf)
    (h : analyze_dataframe df amb = .ok g) {i : Nat} (hi : i < df.nrows) :
    cellAt g "Lambda" i = lambdaRow df i := by
  obtain ⟨hcl, rfl⟩ := analyze_ok_elim h
  rw [cellAt, build_getCol_Lambda, lamColOf_getD hi]

theorem cellAt_TPS_OK {df : Frame} {amb : ℚ} {g : Frame} (hwf : df.Wf)
    (h : analyze_dataframe df amb = .ok g) {i : Nat} (hi : i < df.nrows) :
    cellAt g "TPS_OK" i = Cell.bool (tpsOkRow df i) := by
  obtain ⟨hcl, rfl⟩ := analyze_ok_elim h
  rw [cellAt, build_getCol_TPS_OK,
    getD_map_bool _ _ (by rw [length_tpsOkOf hwf hcl]; exact hi),
    tpsOkOf_getD hwf hcl hi]

theorem cellAt_Lambda_OK {df : Frame} {amb : ℚ} {g : Frame} (hwf : df.Wf)
    (h : analyze_dataframe df amb = .ok g) {i : Nat} (hi : i < df.nrows) :
    cellAt g "Lambda_OK" i = Cell.bool (lambdaOkRow df i) := by
  obtain ⟨hcl, rfl⟩ := analyze_ok_elim h
  rw [cellAt, build_getCol_Lambda_OK,
    getD_map_bool _ _ (by rw [length_lambdaOkOf]; exact hi),
    lambdaOkOf_getD hi]

theorem cellAt_Fuel_OK {df : Frame} {amb : ℚ} {g : Frame} (hwf : df.Wf)
    (h : analyze_dataframe df amb = .ok g) {i : Nat} (hi : i < df.nrows) :
    cellAt g "Fuel_OK" i = Cell.bool (fuelOkRow df i) := by
  obtain ⟨hcl, rfl⟩ := analyze_ok_elim h
  rw [cellAt, build_getCol_Fuel_OK,
    getD_map_bool _ _ (by rw [length_fuelOkOf hwf hcl]; exact hi),
    fuelOkOf_getD hwf hcl hi]

theorem cellAt_IAT_OK {df : Frame} {amb : ℚ} {g : Frame} (hwf : df.Wf)
    (h : analyze_dataframe df amb = .ok g) {i : Nat} (hi : i < df.nrows) :
    cellAt g "IAT_OK" i = Cell.bool (iatOkRow df amb i) := by
  obtain ⟨hcl, rfl⟩ := analyze_ok_elim h
  rw [cellAt, build_getCol_IAT_OK,
    getD_map_bool _ _ (by rw [length_iatOkOf amb hwf hcl]; exact hi),
    iatOkOf_getD hwf hcl hi]

theorem cellAt_ECT_OK {df : Frame} {amb : ℚ} {g : Frame} (hwf : df.Wf)
    (h : analyze_dataframe df amb = .ok g) {i : Nat} (hi : i < df.nrows) :
    cellAt g "ECT_OK" i = Cell.bool (ectOkRow df amb i) := by
  obtain ⟨hcl, rfl⟩ := analyze_ok_elim h
  rw [cellAt, build_getCol_ECT_OK,
    getD_map_bool _ _ (by rw [length_ectOkOf amb hwf hcl]; exact hi),
    ectOkOf_getD hwf hcl hi]

theorem cellAt_OUT {df : Frame} {amb : ℚ} {g : Frame} (hwf : df.Wf)
    (h : analyze_dataframe df amb = .ok g) {i : Nat} (hi : i < df.nrows) :
    cellAt g "OUT" i = Cell.bool (outRow df amb i) := by
  obtain ⟨hcl, rfl⟩ := analyze_ok_elim h
  rw [cellAt, build_getCol_OUT,
    getD_map_bool _ _ (by rw [length_outOf amb hwf hcl]; exact hi),
    outOf_getD hwf hcl hi]

theorem cellAt_dt {df : Frame} {amb : ℚ} {g : Frame} (hwf : df.Wf)
    (h : analyze_dataframe df amb = .ok g) {i : Nat} (hi : i < df.nrows) :
    cellAt g "dt" i = Cell.num (dtRow df i) := by
  obtain ⟨hcl, rfl⟩ := analyze_ok_elim h
  rw [cellAt, build_getCol_dt,
    getD_map_num _ _ (by rw [length_dtOf hwf hcl]; exact hi),
    dtOf_getD hwf hcl hi]

theorem cellAt_debut {df : Frame} {amb : ℚ} {g : Frame} (hwf : df.Wf)
    (h : analyze_dataframe df amb = .ok g) {i : Nat} (hi : i < df.nrows) :
    cellAt g "Début_triche" i = Cell.bool (debutRow df amb i) := by
  obtain ⟨hcl, rfl⟩ := analyze_ok_elim h
  rw [cellAt, build_getCol_debut,
    getD_map_bool _ _ (by rw [length_debutOf amb hwf hcl]; exact hi),
    debutOf_getD hwf hcl hi]

theorem cellAt_qual {df : Frame} {amb : ℚ} {g : Frame} (hwf : df.Wf)
    (h : analyze_dataframe df amb = .ok g) {i : Nat} (hi : i < df.nrows) :
    cellAt g "QUALIFIÉ" i =
      Cell.bool (if i = 0 then true
        else !(debutRow df amb (i - 1) || debutRow df amb i)) := by
  obtain ⟨hcl, rfl⟩ := analyze_ok_elim h
  rw [cellAt, build_getCol_qual,
    getD_map_bool _ _ (by rw [length_qualOf amb hwf hcl]; exact hi),
    qualOf_getD hwf hcl hi]
  by_cases h0 : i = 0
  · simp [h0]
  · have hi1 : i - 1 < df.nrows := by omega
    rw [if_neg h0, if_neg h0, debutOf_getD hwf hcl hi1, debutOf_getD hwf hcl hi]

theorem flagAt_debut {df : Frame} {amb : ℚ} {g : Frame} (hwf : df.Wf)
    (h : analyze_dataframe df amb = .ok g) {i : Nat} (hi : i < df.nrows) :
    flagAt g "Début_triche" i = debutRow df amb i := by
  rw [flagAt, cellAt_debut hwf h hi]
  cases debutRow df amb i <;> decide

theorem flagAt_OUT {df : Frame} {amb : ℚ} {g : Frame} (hwf : df.Wf)
    (h : analyze_dataframe df amb = .ok g) {i : Nat} (hi : i < df.nrows) :
    flagAt g "OUT" i = outRow df amb i := by
  rw [flagAt, cellAt_OUT hwf h hi]
  cases outRow df amb i <;> decide

theorem flagAt_qual {df : Frame} {amb : ℚ} {g : Frame} (hwf : df.Wf)
    (h : analyze_dataframe df amb = .ok g) {i : Nat} (hi : i < df.nrows) :
    flagAt g "QUALIFIÉ" i =
      (if i = 0 then true
        else !(debutRow df amb (i - 1) || debutRow df amb i)) := by
  rw [flagAt, cellAt_qual hwf h hi]
  by_cases h0 : i = 0
  · simp [h0]
  · rw [if_neg h0]
    cases !(debutRow df amb (i - 1) || debutRow df amb i) <;> decide

/-- The first row's confirmed-episode-start flag is always false: its
`dt` is `0`, so the accumulator is `0 < cheat_delay_sec`. -/
theorem debutRow_zero (df : Frame) (amb : ℚ) : debutRow df amb 0 = false := by
  have hacc : accRow df amb 0 = 0 := by
    rw [accRow, dtRow, if_pos rfl, ite_self]
  rw [debutRow, hacc]
  have : ¬ cheat_delay_sec ≤ (0 : ℚ) := by norm_num [cheat_delay_sec]
  simp [this]

/-! ### Concrete example logs -/

/-- Example log: full throttle, lambda far out of range, strictly
increasing time — the debounce confirms from the second row on. -/
def exA : Frame :=
  ⟨[("Time (s)", [Cell.num 0, Cell.num 1, Cell.num 2]),
    ("TPS (%)", [Cell.num 100, Cell.num 100, Cell.num 100]),
    ("Fuel Pressure (psi)", [Cell.num 340, Cell.num 340, Cell.num 340]),
    ("IAT (°C)", [Cell.num 20, Cell.num 20, Cell.num 20]),
    ("ECT (°C)", [Cell.num 20, Cell.num 20, Cell.num 20]),
    ("Lambda 1", [Cell.num 1, Cell.num 1, Cell.num 1])]⟩

/-- Like `exA`, but elapsed time falls back to `0` on the last row. -/
def exB : Frame :=
  ⟨[("Time (s)", [Cell.num 0, Cell.num 1, Cell.num 0]),
    ("TPS (%)", [Cell.num 100, Cell.num 100, Cell.num 100]),
    ("Fuel Pressure (psi)", [Cell.num 340, Cell.num 340, Cell.num 340]),
    ("IAT (°C)", [Cell.num 20, Cell.num 20, Cell.num 20]),
    ("ECT (°C)", [Cell.num 20, Cell.num 20, Cell.num 20]),
    ("Lambda 1", [Cell.num 1, Cell.num 1, Cell.num 1])]⟩

/-- A log whose throttle channel holds a non-numeric string. -/
def exS : Frame :=
  ⟨[("Time (s)", [Cell.num 0]),
    ("TPS (%)", [Cell.str "abc"]),
    ("Fuel Pressure (psi)", [Cell.num 340]),
    ("IAT (°C)", [Cell.num 20]),
    ("ECT (°C)", [Cell.num 20]),
    ("Lambda 1", [Cell.num 1])]⟩

/-- A log missing every required column but elapsed time. -/
def exM : Frame := ⟨[("Time (s)", [Cell.num 0])]⟩

/-- A log with all required columns but no lambda channel. -/
def exNL : Frame :=
  ⟨[("Time (s)", [Cell.num 0]),
    ("TPS (%)", [Cell.num 100]),
    ("Fuel Pressure (psi)", [Cell.num 340]),
    ("IAT (°C)", [Cell.num 20]),
    ("ECT (°C)", [Cell.num 20])]⟩

/-- A log whose middle row is `NaN` in every sensor channel. -/
def exN : Frame :=
  ⟨[("Time (s)", [Cell.num 0, Cell.num 1, Cell.num 2]),
    ("TPS (%)", [Cell.num 100, Cell.nan, Cell.num 100]),
    ("Fuel Pressure (psi)", [Cell.num 340, Cell.nan, Cell.num 340]),
    ("IAT (°C)", [Cell.num 20, Cell.nan, Cell.num 20]),
    ("ECT (°C)", [Cell.num 20, Cell.nan, Cell.num 20]),
    ("Lambda 1", [Cell.num 1, Cell.nan, Cell.num 1])]⟩

theorem exA_clean : inputClean exA = true := by decide

theorem exA_wf : exA.Wf := by decide

theorem exA_ok : analyze_dataframe exA 20 = .ok (buildAnnotated exA 20) :=
  analyze_clean_eq exA 20 exA_clean

theorem exA_lambdaOk (i : Nat) (hi : i < 3) : lambdaOkRow exA i = false := by
  have h : rowCells ((lambdaCols exA).map exA.getCol) i = [Cell.num 1] := by
    interval_cases i <;> decide
  rw [lambdaOkRow, lambdaRow, h]
  simp only [meanCell, List.filterMap_cons, List.filterMap_nil, numVals]
  norm_num [cellBetweenB, lambda_lo, lambda_hi]

theorem exA_out (i : Nat) (hi : i < 3) : outRow exA 20 i = true := by
  have htps : tpsOkRow exA i = true := by interval_cases i <;> decide
  rw [outRow, htps, exA_lambdaOk i hi]
  simp

theorem exA_dt0 : dtRow exA 0 = 0 := by simp [dtRow]

theorem exA_dt1 : dtRow exA 1 = 1 := by
  have h0 : cellAt exA "Time (s)" 0 = Cell.num 0 := by decide
  have h1 : cellAt exA "Time (s)" 1 = Cell.num 1 := by decide
  rw [dtRow, if_neg (by omega)]
  simp only [h0, h1]
  norm_num

theorem exA_dt2 : dtRow exA 2 = 1 := by
  have h1 : cellAt exA "Time (s)" 1 = Cell.num 1 := by decide
  have h2 : cellAt exA "Time (s)" 2 = Cell.num 2 := by decide
  rw [dtRow, if_neg (by omega)]
  simp only [h1, h2]
  norm_num

theorem exA_acc0 : accRow exA 20 0 = 0 := by
  rw [accRow, exA_dt0, ite_self]

theorem exA_acc1 : accRow exA 20 1 = 1 := by
  rw [accRow, exA_out 1 (by omega), if_pos rfl, exA_acc0, exA_dt1]
  norm_num

theorem exA_acc2 : accRow exA 20 2 = 2 := by
  rw [accRow, exA_out 2 (by omega), if_pos rfl, exA_acc1, exA_dt2]
  norm_num

theorem exA_debut0 : debutRow exA 20 0 = false := debutRow_zero exA 20

theorem exA_debut1 : debutRow exA 20 1 = true := by
  rw [debutRow, exA_out 1 (by omega), exA_acc1]
  norm_num [cheat_delay_sec]

theorem exA_debut2 : debutRow exA 20 2 = true := by
  rw [debutRow, exA_out 2 (by omega), exA_acc2]
  norm_num [cheat_delay_sec]

theorem exB_clean : inputClean exB = true := by decide

theorem exB_wf : exB.Wf := by decide

theorem exB_ok : analyze_dataframe exB 20 = .ok (buildAnnotated exB 20) :=
  analyze_clean_eq exB 20 exB_clean

theorem exB_lambdaOk (i : Nat) (hi : i < 3) : lambdaOkRow exB i = false := by
  have h : rowCells ((lambdaCols exB).map exB.getCol) i = [Cell.num 1] := by
    interval_cases i <;> decide
  rw [lambdaOkRow, lambdaRow, h]
  simp only [meanCell, List.filterMap_cons, List.filterMap_nil, numVals]
  norm_num [cellBetweenB, lambda_lo, lambda_hi]

theorem exB_out (i : Nat) (hi : i < 3) : outRow exB 20 i = true := by
  have htps : tpsOkRow exB i = true := by interval_cases i <;> decide
  rw [outRow, htps, exB_lambdaOk i hi]
  simp

theorem exB_dt1 : dtRow exB 1 = 1 := by
  have h0 : cellAt exB "Time (s)" 0 = Cell.num 0 := by decide
  have h1 : cellAt exB "Time (s)" 1 = Cell.num 1 := by decide
  rw [dtRow, if_neg (by omega)]
  simp only [h0, h1]
  norm_num

theorem exB_dt2 : dtRow exB 2 = -1 := by
  have h1 : cellAt exB "Time (s)" 1 = Cell.num 1 := by decide
  have h2 : cellAt exB "Time (s)" 2 = Cell.num 0 := by decide
  rw [dtRow, if_neg (by omega)]
  simp only [h1, h2]
  norm_num

theorem exB_acc0 : accRow exB 20 0 = 0 := by
  rw [accRow, dtRow, if_pos rfl, ite_self]

theorem exB_acc1 : accRow exB 20 1 = 1 := by
  rw [accRow, exB_out 1 (by omega), if_pos rfl, exB_acc0, exB_dt1]
  norm_num

theorem exB_acc2 : accRow exB 20 2 = 0 := by
  rw [accRow, exB_out 2 (by omega), if_pos rfl, exB_acc1, exB_dt2]
  norm_num

theorem exB_debut2 : debutRow exB 20 2 = false := by
  rw [debutRow, exB_acc2]
  have : ¬ cheat_delay_sec ≤ (0 : ℚ) := by norm_num [cheat_delay_sec]
  simp [this]

/-! ### The debounce machine exactly as claim C1 words it -/

/-- The inter-row time delta as claim C1 states it: `0` for the first
row and `0` whenever elapsed time is non-increasing — never negative. -/
def dtRowClaimC1 (df : Frame) (i : Nat) : ℚ :=
  if i = 0 then 0
  else
    match cellAt df "Time (s)" (i - 1), cellAt df "Time (s)" i with
    | .num p, .num q => if q ≤ p then 0 else q - p
    | _, _ => 0

/-- The accumulator of claim C1's machine. -/
def accRowClaimC1 (df : Frame) (amb : ℚ) : Nat → ℚ
  | 0 => if outRow df amb 0 then dtRowClaimC1 df 0 else 0
  | i + 1 =>
    if outRow df amb (i + 1) then accRowClaimC1 df amb i + dtRowClaimC1 df (i + 1)
    else 0

/-- The confirmed-episode-start flag of claim C1's machine. -/
def debutRowClaimC1 (df : Frame) (amb : ℚ) (i : Nat) : Bool :=
  outRow df amb i && decide (cheat_delay_sec ≤ accRowClaimC1 df amb i)

theorem exB_claim_dt2 : dtRowClaimC1 exB 2 = 0 := by
  have h1 : cellAt exB "Time (s)" 1 = Cell.num 1 := by decide
  have h2 : cellAt exB "Time (s)" 2 = Cell.num 0 := by decide
  rw [dtRowClaimC1, if_neg (by omega)]
  simp only [h1, h2]
  norm_num

theorem exB_claim_acc2 : accRowClaimC1 exB 20 2 = 1 := by
  have ha0 : accRowClaimC1 exB 20 0 = 0 := by
    rw [accRowClaimC1, dtRowClaimC1, if_pos rfl, ite_self]
  have hdt1 : dtRowClaimC1 exB 1 = 1 := by
    have h0 : cellAt exB "Time (s)" 0 = Cell.num 0 := by decide
    have h1 : cellAt exB "Time (s)" 1 = Cell.num 1 := by decide
    rw [dtRowClaimC1, if_neg (by omega)]
    simp only [h0, h1]
    norm_num
  have ha1 : accRowClaimC1 exB 20 1 = 1 := by
    rw [accRowClaimC1, exB_out 1 (by omega), if_pos rfl, ha0, hdt1]
    norm_num
  rw [accRowClaimC1, exB_out 2 (by omega), if_pos rfl, ha1, exB_claim_dt2]
  norm_num

theorem exB_claim_debut2 : debutRowClaimC1 exB 20 2 = true := by
  rw [debutRowClaimC1, exB_out 2 (by omega), exB_claim_acc2]
  norm_num [cheat_delay_sec]

/-! ### Error-path facts -/

theorem exS_err : analyze_dataframe exS 20 = .error "TypeError" := by rfl

theorem exM_err :
    analyze_dataframe exM 20 = .error "Colonne manquante : TPS (%)" := by rfl

theorem exNL_err :
    analyze_dataframe exNL 20 =
      .error "Aucune colonne Lambda détectée dans le fichier" := by rfl

theorem exN_clean : inputClean exN = true := by decide

theorem exN_wf : exN.Wf := by decide

theorem exN_ok : analyze_dataframe exN 20 = .ok (buildAnnotated exN 20) :=
  analyze_clean_eq exN 20 exN_clean

/-! ### Remaining helpers for the claims -/

theorem boolBeq (b : Bool) : (Cell.bool b == Cell.bool true) = b := by
  cases b <;> decide

theorem analyze_missing {df : Frame} (amb : ℚ) {c : String}
    (hfm : firstMissing df = some c) :
    analyze_dataframe df amb = .error ("Colonne manquante : " ++ c) := by
  unfold analyze_dataframe
  rw [hfm]
  exact rfl

theorem analyze_noLambda {df : Frame} (amb : ℚ) (hfm : firstMissing df = none)
    (hlam : (lambdaCols df).isEmpty = true) :
    analyze_dataframe df amb =
      .error "Aucune colonne Lambda détectée dans le fichier" := by
  unfold analyze_dataframe
  rw [hfm]
  rw [if_pos hlam]
  exact rfl

/-- The string-freeness part of `inputClean`: no raw string in any
column the analysis touches. -/
def strFreeUsed (df : Frame) : Bool :=
  !((lambdaCols df).map df.getCol).any hasStr &&
  !hasStr (df.getCol "TPS (%)") &&
  !hasStr (df.getCol "Fuel Pressure (psi)") &&
  !hasStr (df.getCol "IAT (°C)") &&
  !hasStr (df.getCol "ECT (°C)") &&
  !hasStr (df.getCol "Time (s)")

theorem inputClean_of {df : Frame} (h1 : firstMissing df = none)
    (h2 : (lambdaCols df).isEmpty = false) (h3 : strFreeUsed df = true) :
    inputClean df = true := by
  simp only [strFreeUsed, Bool.and_eq_true] at h3
  obtain ⟨⟨⟨⟨⟨g1, g2⟩, g3⟩, g4⟩, g5⟩, g6⟩ := h3
  simp [inputClean, h1, h2, g1, g2, g3, g4, g5, g6]

theorem firstTrueIdx_eq_none {cs : List Cell}
    (h : ∀ c ∈ cs, (c == Cell.bool true) = false) : firstTrueIdx cs = none := by
  induction cs with
  | nil => rfl
  | cons c rest ih =>
    rw [firstTrueIdx, if_neg (by simp [h c (List.mem_cons_self c rest)]),
      ih fun d hd => h d (List.mem_cons_of_mem c hd)]
    rfl

theorem firstTrueIdx_eq_some {cs : List Cell} {i : Nat} (hi : i < cs.length)
    (h : (cs.getD i Cell.nan == Cell.bool true) = true)
    (hmin : ∀ j, j < i → (cs.getD j Cell.nan == Cell.bool true) = false) :
    firstTrueIdx cs = some i := by
  induction cs generalizing i with
  | nil => simp at hi
  | cons c rest ih =>
    cases i with
    | zero =>
      rw [List.getD_cons_zero] at h
      rw [firstTrueIdx, if_pos h]
    | succ k =>
      have hc : (c == Cell.bool true) = false := by
        have := hmin 0 (by omega)
        rwa [List.getD_cons_zero] at this
      rw [firstTrueIdx, if_neg (by simp [hc])]
      have hk : k < rest.length := by simpa using hi
      rw [List.getD_cons_succ] at h
      rw [ih hk h fun j hj => by
        have := hmin (j + 1) (by omega)
        rwa [List.getD_cons_succ] at this]
      rfl

theorem accRow_reset {df : Frame} {amb : ℚ} {i : Nat}
    (h : outRow df amb i = false) : accRow df amb i = 0 := by
  cases i <;> simp [accRow, h]

/-! ### The claims -/

/-- C1 (amended): the debounce machine processes rows in input order with
accumulator `accRow` starting at `0`; `dt` is the raw difference of
consecutive elapsed-time values (`0` for the first row and when either
neighbour is missing; negative when elapsed time decreases, in which case
the accumulator decreases); on a row with `OUT` true the accumulator
grows by `dt` and confirmed-episode-start is `acc ≥ 0.5`; on a row with
`OUT` false the accumulator resets to `0` and the flag is false. -/
theorem claim_C1_amended {df : Frame} {amb : ℚ} {g : Frame} (hwf : df.Wf)
    (h : analyze_dataframe df amb = .ok g) :
    ∀ i, i < df.nrows →
      cellAt g "dt" i = Cell.num (dtRow df i) ∧
      cellAt g "Début_triche" i =
        Cell.bool (outRow df amb i && decide (cheat_delay_sec ≤ accRow df amb i)) ∧
      (outRow df amb i = false → accRow df amb i = 0) := by
  intro i hi
  exact ⟨cellAt_dt hwf h hi, cellAt_debut hwf h hi, accRow_reset⟩

/-- C1 (counterexample): with elapsed time `0, 1, 0` and `OUT` true on
every row, the program's third confirmed-episode-start flag is false (the
raw `dt = -1` shrinks the accumulator back to `0`), while the machine of
the claim as stated (with `dt` clamped to `0` on non-increasing time)
flags it true. -/
theorem claim_C1_counterexample :
    analyze_dataframe exB 20 = .ok (buildAnnotated exB 20) ∧
    flagAt (buildAnnotated exB 20) "Début_triche" 2 = false ∧
    debutRowClaimC1 exB 20 2 = true := by
  refine ⟨exB_ok, ?_, exB_claim_debut2⟩
  rw [flagAt_debut exB_wf exB_ok (by decide : 2 < exB.nrows)]
  exact exB_debut2

/-- C2: on every row of the annotated frame, `OUT` equals
`throttle_ok && !(lambda_ok && fuel_ok && intake_ok && coolant_ok)` with
the rules of §4.2; consequently `OUT` implies `throttle_ok`, and a high
throttle with all other rules passing never sets `OUT`. -/
theorem claim_C2 {df : Frame} {amb : ℚ} {g : Frame} (hwf : df.Wf)
    (h : analyze_dataframe df amb = .ok g) :
    (∀ i, i < df.nrows →
      flagAt g "OUT" i =
        (tpsOkRow df i &&
          !(lambdaOkRow df i && fuelOkRow df i && iatOkRow df amb i &&
            ectOkRow df amb i))) ∧
    (∀ i, i < df.nrows → flagAt g "OUT" i = true → tpsOkRow df i = true) ∧
    (∀ i, i < df.nrows → tpsOkRow df i = true → lambdaOkRow df i = true →
      fuelOkRow df i = true → iatOkRow df amb i = true → ectOkRow df amb i = true →
      flagAt g "OUT" i = false) := by
  have key : ∀ i, i < df.nrows →
      flagAt g "OUT" i =
        (tpsOkRow df i &&
          !(lambdaOkRow df i && fuelOkRow df i && iatOkRow df amb i &&
            ectOkRow df amb i)) := by
    intro i hi
    rw [flagAt_OUT hwf h hi, outRow]
  refine ⟨key, ?_, ?_⟩
  · intro i hi hout
    rw [key i hi] at hout
    simp only [Bool.and_eq_true] at hout
    exact hout.1
  · intro i hi h1 h2 h3 h4 h5
    rw [key i hi, h1, h2, h3, h4, h5]
    rfl

/-- C3: on the annotated frame, the verdict is `"PASS"` when no row's
confirmed-episode-start flag is set; otherwise it carries the elapsed
time of the first (earliest in input order) flagged row, formatted to two
decimal places. -/
theorem claim_C3 {df : Frame} {amb : ℚ} {g : Frame} (hwf : df.Wf)
    (h : analyze_dataframe df amb = .ok g) :
    ((∀ i, i < df.nrows → flagAt g "Début_triche" i = false) →
      verdict g = "PASS") ∧
    (∀ i, i < df.nrows → flagAt g "Début_triche" i = true →
      (∀ j, j < i → flagAt g "Début_triche" j = false) →
      verdict g = "CHEAT – Début à " ++ fmtCell (cellAt g "Time (s)" i) ++ " s") := by
  obtain ⟨hcl, hg⟩ := analyze_ok_elim h
  have hcol : g.getCol "Début_triche" = (debutOf df amb).map Cell.bool := by
    rw [hg]; exact build_getCol_debut df amb
  have hlen : (debutOf df amb).length = df.nrows := length_debutOf amb hwf hcl
  constructor
  · intro hall
    have hnone : firstTrueIdx ((debutOf df amb).map Cell.bool) = none := by
      apply firstTrueIdx_eq_none
      intro c hc
      obtain ⟨b, hb, rfl⟩ := List.mem_map.mp hc
      obtain ⟨j, hj, rfl⟩ := List.mem_iff_getElem.mp hb
      have hjn : j < df.nrows := by rw [← hlen]; exact hj
      have hd := hall j hjn
      rw [flagAt_debut hwf h hjn, ← debutOf_getD hwf hcl hjn,
        List.getD_eq_getElem _ false hj] at hd
      rw [hd]
      decide
    rw [verdict, hcol, hnone]
  · intro i hi htrue hmin
    have hilen : i < ((debutOf df amb).map Cell.bool).length := by
      simpa [hlen] using hi
    have hflag : ∀ j, j < df.nrows →
        ((debutOf df amb).map Cell.bool).getD j Cell.nan =
          Cell.bool (debutRow df amb j) := by
      intro j hj
      rw [getD_map_bool _ _ (by rw [hlen]; exact hj), debutOf_getD hwf hcl hj]
    have hgetd :
        (((debutOf df amb).map Cell.bool).getD i Cell.nan == Cell.bool true) = true := by
      rw [hflag i hi]
      rw [flagAt_debut hwf h hi] at htrue
      rw [htrue]
      decide
    have hminc : ∀ j, j < i →
        (((debutOf df amb).map Cell.bool).getD j Cell.nan == Cell.bool true) = false := by
      intro j hj
      have hjn : j < df.nrows := by omega
      rw [hflag j hjn]
      have hd := hmin j hj
      rw [flagAt_debut hwf h hjn] at hd
      rw [hd]
      decide
    rw [verdict, hcol, firstTrueIdx_eq_some hilen hgetd hminc]
    rfl

/-- C4 (amended): the classifier raises `Colonne manquante : <c>` naming
the first absent required channel in the fixed order throttle, fuel
pressure, intake temp, coolant temp, elapsed time; with all required
channels present but no lambda column it raises the no-lambda error; on
inputs whose used columns hold no non-numeric strings these are the only
raises (the run succeeds); non-numeric strings can additionally raise a
`TypeError`.  On any failure no annotated frame is returned. -/
theorem claim_C4_amended (df : Frame) (amb : ℚ) :
    (∀ k, k < REQUIRED.length →
      (∀ j, j < k → df.hasCol (REQUIRED.getD j "") = true) →
      df.hasCol (REQUIRED.getD k "") = false →
      analyze_dataframe df amb =
        .error ("Colonne manquante : " ++ REQUIRED.getD k "")) ∧
    ((∀ c ∈ REQUIRED, df.hasCol c = true) → lambdaCols df = [] →
      analyze_dataframe df amb =
        .error "Aucune colonne Lambda détectée dans le fichier") ∧
    (inputClean df = true →
      analyze_dataframe df amb = .ok (buildAnnotated df amb)) := by
  refine ⟨?_, ?_, analyze_clean_eq df amb⟩
  · intro k hk hprev hmiss
    apply analyze_missing
    have hk5 : k < 5 := by simpa [REQUIRED] using hk
    interval_cases k
    · simp only [REQUIRED, List.getD_cons_zero] at hmiss ⊢
      rw [firstMissing, REQUIRED]
      exact List.find?_cons_of_pos _ (by simp [hmiss])
    · have h0 := hprev 0 (by omega)
      simp only [REQUIRED, List.getD_cons_zero, List.getD_cons_succ] at h0 hmiss ⊢
      rw [firstMissing, REQUIRED]
      rw [List.find?_cons_of_neg _ (by simp [h0])]
      exact List.find?_cons_of_pos _ (by simp [hmiss])
    · have h0 := hprev 0 (by omega)
      have h1 := hprev 1 (by omega)
      simp only [REQUIRED, List.getD_cons_zero, List.getD_cons_succ] at h0 h1 hmiss ⊢
      rw [firstMissing, REQUIRED]
      rw [List.find?_cons_of_neg _ (by simp [h0]),
        List.find?_cons_of_neg _ (by simp [h1])]
      exact List.find?_cons_of_pos _ (by simp [hmiss])
    · have h0 := hprev 0 (by omega)
      have h1 := hprev 1 (by omega)
      have h2 := hprev 2 (by omega)
      simp only [REQUIRED, List.getD_cons_zero, List.getD_cons_succ] at h0 h1 h2 hmiss ⊢
      rw [firstMissing, REQUIRED]
      rw [List.find?_cons_of_neg _ (by simp [h0]),
        List.find?_cons_of_neg _ (by simp [h1]),
        List.find?_cons_of_neg _ (by simp [h2])]
      exact List.find?_cons_of_pos _ (by simp [hmiss])
    · have h0 := hprev 0 (by omega)
      have h1 := hprev 1 (by omega)
      have h2 := hprev 2 (by omega)
      have h3 := hprev 3 (by omega)
      simp only [REQUIRED, List.getD_cons_zero, List.getD_cons_succ] at h0 h1 h2 h3 hmiss ⊢
      rw [firstMissing, REQUIRED]
      rw [List.find?_cons_of_neg _ (by simp [h0]),
        List.find?_cons_of_neg _ (by simp [h1]),
        List.find?_cons_of_neg _ (by simp [h2]),
        List.find?_cons_of_neg _ (by simp [h3])]
      exact List.find?_cons_of_pos _ (by simp [hmiss])
  · intro hall hlam
    apply analyze_noLambda
    · rw [firstMissing]
      apply List.find?_eq_none.mpr
      intro c hc
      simp [hall c hc]
    · simp [hlam]

/-- C4 (counterexample): on a table with all required columns and a
lambda column but a non-numeric string in the throttle channel, the
classifier raises a `TypeError`, which is neither a missing-column nor a
no-lambda error — so those two are not the only raises. -/
theorem claim_C4_counterexample :
    analyze_dataframe exS 20 = .error "TypeError" ∧
    String.isPrefixOf "Colonne manquante : " "TypeError" = false ∧
    "TypeError" ≠ "Aucune colonne Lambda détectée dans le fichier" := by
  refine ⟨exS_err, ?_, ?_⟩ <;> decide

/-- C5 (amended): on tables with the required and lambda columns whose
used columns hold no non-numeric string, the classifier never raises —
row-level `NaN` values included — and every `NaN` makes the
corresponding rule outcome false for that row, never a silent pass.
Non-numeric strings, by contrast, do raise (see the counterexample). -/
theorem claim_C5_amended (df : Frame) (amb : ℚ) (hwf : df.Wf)
    (hreq : firstMissing df = none) (hlam : (lambdaCols df).isEmpty = false)
    (hstr : strFreeUsed df = true) :
    ∃ g, analyze_dataframe df amb = .ok g ∧
      ∀ i, i < df.nrows →
        (cellAt df "TPS (%)" i = Cell.nan → flagAt g "TPS_OK" i = false) ∧
        (cellAt df "Fuel Pressure (psi)" i = Cell.nan →
          flagAt g "Fuel_OK" i = false) ∧
        (cellAt df "IAT (°C)" i = Cell.nan → flagAt g "IAT_OK" i = false) ∧
        (cellAt df "ECT (°C)" i = Cell.nan → flagAt g "ECT_OK" i = false) ∧
        ((∀ n ∈ lambdaCols df, cellAt df n i = Cell.nan) →
          flagAt g "Lambda_OK" i = false) := by
  have hcl : inputClean df = true := inputClean_of hreq hlam hstr
  have hok : analyze_dataframe df amb = .ok (buildAnnotated df amb) :=
    analyze_clean_eq df amb hcl
  refine ⟨buildAnnotated df amb, hok, ?_⟩
  intro i hi
  refine ⟨?_, ?_, ?_, ?_, ?_⟩
  · intro hnan
    rw [flagAt, cellAt_TPS_OK hwf hok hi, boolBeq, tpsOkRow, hnan]
    rfl
  · intro hnan
    rw [flagAt, cellAt_Fuel_OK hwf hok hi, boolBeq, fuelOkRow, hnan]
    rfl
  · intro hnan
    rw [flagAt, cellAt_IAT_OK hwf hok hi, boolBeq, iatOkRow, hnan]
    rfl
  · intro hnan
    rw [flagAt, cellAt_ECT_OK hwf hok hi, boolBeq, ectOkRow, hnan]
    rfl
  · intro hall
    rw [flagAt, cellAt_Lambda_OK hwf hok hi, boolBeq, lambdaOkRow, lambdaRow]
    have hrow : rowCells ((lambdaCols df).map df.getCol) i =
        (lambdaCols df).map fun n => cellAt df n i := by
      rw [rowCells, List.map_map]
      rfl
    have hnil : numVals (rowCells ((lambdaCols df).map df.getCol) i) = [] := by
      rw [hrow, numVals]
      apply List.filterMap_eq_nil_iff.mpr
      intro c hc
      obtain ⟨n, hn, rfl⟩ := List.mem_map.mp hc
      rw [hall n hn]
    rw [meanCell]
    simp only [hnil, List.isEmpty_nil, if_true]
    rfl

/-- C5 (counterexample): a non-numeric string in the throttle channel of
an otherwise valid table makes the classifier raise, so row-level
non-numeric values do not always degrade to false rule outcomes. -/
theorem claim_C5_counterexample :
    analyze_dataframe exS 20 = .error "TypeError" ∧
    exS.hasCol "TPS (%)" = true ∧ lambdaCols exS = ["Lambda 1"] := by
  exact ⟨exS_err, by decide, by decide⟩

/-- C6: whenever at least one column name contains the case-insensitive
substring "lambda", every row's derived Lambda value is the arithmetic
mean (sum divided by count) of that row's values across the matched
lambda columns — `NaN` when the row has no such value. -/
theorem claim_C6 {df : Frame} {amb : ℚ} {g : Frame} (hwf : df.Wf)
    (h : analyze_dataframe df amb = .ok g) :
    ∀ i, i < df.nrows →
      cellAt g "Lambda" i =
        (if (numVals ((lambdaCols df).map fun n => cellAt df n i)).isEmpty
         then Cell.nan
         else Cell.num
           ((numVals ((lambdaCols df).map fun n => cellAt df n i)).sum /
             (numVals ((lambdaCols df).map fun n => cellAt df n i)).length)) := by
  intro i hi
  rw [cellAt_Lambda hwf h hi, lambdaRow]
  have hrow : rowCells ((lambdaCols df).map df.getCol) i =
      (lambdaCols df).map fun n => cellAt df n i := by
    rw [rowCells, List.map_map]
    rfl
  rw [meanCell, hrow]

/-- C7: the qualified flag of row `i` is false exactly when the
confirmed-episode-start flag is set on row `i` or on row `i - 1`; the
first row's window holds only itself, so row 0 is qualified exactly when
it is not itself a confirmed start. -/
theorem claim_C7 {df : Frame} {amb : ℚ} {g : Frame} (hwf : df.Wf)
    (h : analyze_dataframe df amb = .ok g) :
    ∀ i, i < df.nrows →
      flagAt g "QUALIFIÉ" i =
        !(flagAt g "Début_triche" i ||
          (decide (0 < i) && flagAt g "Début_triche" (i - 1))) := by
  intro i hi
  rw [flagAt_qual hwf h hi, flagAt_debut hwf h hi]
  by_cases h0 : i = 0
  · subst h0
    rw [if_pos rfl, debutRow_zero]
    simp
  · have hi1 : i - 1 < df.nrows := by omega
    rw [if_neg h0, flagAt_debut hwf h hi1]
    have : decide (0 < i) = true := by simp [Nat.pos_of_ne_zero h0]
    rw [this, Bool.true_and, Bool.or_comm]

/-- C8: for every valid input the annotated frame has exactly the input's
row count, every column has that length, and every column whose name the
analysis does not write is carried over unchanged — no row is added,
removed, or reordered. -/
theorem claim_C8 {df : Frame} {amb : ℚ} {g : Frame} (hwf : df.Wf)
    (h : analyze_dataframe df amb = .ok g) :
    g.Wf ∧ g.nrows = df.nrows ∧
      ∀ n, n ∉ derivedNames → g.getCol n = df.getCol n := by
  obtain ⟨hcl, hg⟩ := analyze_ok_elim h
  subst hg
  obtain ⟨hn, hw⟩ := build_nrows_Wf df amb hwf hcl
  exact ⟨hw, hn, fun n hn2 => build_getCol_orig df amb hn2⟩

/-- C9: a row whose confirmed-episode-start flag is set also has its
instantaneous-violation flag `OUT` set. -/
theorem claim_C9 {df : Frame} {amb : ℚ} {g : Frame} (hwf : df.Wf)
    (h : analyze_dataframe df amb = .ok g) {i : Nat} (hi : i < df.nrows)
    (hd : flagAt g "Début_triche" i = true) : flagAt g "OUT" i = true := by
  rw [flagAt_debut hwf h hi] at hd
  rw [flagAt_OUT hwf h hi]
  rw [debutRow] at hd
  simp only [Bool.and_eq_true] at hd
  exact hd.1

/-- C10: on every valid input with at least one row, the first row's
confirmed-episode-start flag is false (its `dt` is fixed at `0`, so the
accumulator is `0 < 0.5`), and consequently the first row's qualified
flag is true. -/
theorem claim_C10 {df : Frame} {amb : ℚ} {g : Frame} (hwf : df.Wf)
    (h : analyze_dataframe df amb = .ok g) (h0 : 0 < df.nrows) :
    flagAt g "Début_triche" 0 = false ∧ flagAt g "QUALIFIÉ" 0 = true := by
  constructor
  · rw [flagAt_debut hwf h h0]
    exact debutRow_zero df amb
  · rw [flagAt_qual hwf h h0]
    rfl

/-! ### Witnesses -/

/-- Witness for C1 (amended), at `exB`, row 2. -/
theorem claim_C1_amended_witness :
    exB.Wf ∧ analyze_dataframe exB 20 = .ok (buildAnnotated exB 20) ∧
    2 < exB.nrows ∧
    (cellAt (buildAnnotated exB 20) "dt" 2 = Cell.num (dtRow exB 2) ∧
     cellAt (buildAnnotated exB 20) "Début_triche" 2 =
       Cell.bool (outRow exB 20 2 && decide (cheat_delay_sec ≤ accRow exB 20 2)) ∧
     (outRow exB 20 2 = false → accRow exB 20 2 = 0)) :=
  ⟨exB_wf, exB_ok, by decide, claim_C1_amended exB_wf exB_ok 2 (by decide)⟩

/-- Witness for C2, at `exA`, row 0, where `OUT` is actually set. -/
theorem claim_C2_witness :
    exA.Wf ∧ analyze_dataframe exA 20 = .ok (buildAnnotated exA 20) ∧
    flagAt (buildAnnotated exA 20) "OUT" 0 = true ∧ tpsOkRow exA 0 = true := by
  have hout : flagAt (buildAnnotated exA 20) "OUT" 0 = true := by
    rw [flagAt_OUT exA_wf exA_ok (by decide : 0 < exA.nrows)]
    exact exA_out 0 (by omega)
  exact ⟨exA_wf, exA_ok, hout, (claim_C2 exA_wf exA_ok).2.1 0 (by decide) hout⟩

/-- Witness for C3, at `exA`: the first confirmed row is row 1 at
elapsed time `1`, and the verdict carries it. -/
theorem claim_C3_witness :
    exA.Wf ∧ analyze_dataframe exA 20 = .ok (buildAnnotated exA 20) ∧
    flagAt (buildAnnotated exA 20) "Début_triche" 1 = true ∧
    verdict (buildAnnotated exA 20) =
      "CHEAT – Début à " ++
        fmtCell (cellAt (buildAnnotated exA 20) "Time (s)" 1) ++ " s" ∧
    verdict (buildAnnotated exA 20) = "CHEAT – Début à 1.00 s" := by
  have h1 : flagAt (buildAnnotated exA 20) "Début_triche" 1 = true := by
    rw [flagAt_debut exA_wf exA_ok (by decide : 1 < exA.nrows)]
    exact exA_debut1
  have h0 : ∀ j, j < 1 → flagAt (buildAnnotated exA 20) "Début_triche" j = false := by
    intro j hj
    have hj0 : j = 0 := by omega
    subst hj0
    rw [flagAt_debut exA_wf exA_ok (by decide : 0 < exA.nrows)]
    exact exA_debut0
  have hv := (claim_C3 exA_wf exA_ok).2 1 (by decide) h1 h0
  refine ⟨exA_wf, exA_ok, h1, hv, ?_⟩
  have htime : cellAt (buildAnnotated exA 20) "Time (s)" 1 = Cell.num 1 := by
    rw [cellAt, build_getCol_orig exA 20 (by decide : "Time (s)" ∉ derivedNames)]
    decide
  have hfmt : fmtCell (Cell.num 1) = "1.00" := by
    have h100 : roundHalfEven (1 * 100) = 100 := by
      rw [roundHalfEven]
      norm_num
    rw [fmtCell, fmt2]
    simp only [h100]
    rfl
  rw [hv, htime, hfmt]
  rfl

/-- Witness for C4 (amended): `exM` misses the throttle column, `exNL`
has no lambda column, and the clean `exA` succeeds. -/
theorem claim_C4_amended_witness :
    analyze_dataframe exM 20 =
      .error ("Colonne manquante : " ++ REQUIRED.getD 0 "") ∧
    analyze_dataframe exNL 20 =
      .error "Aucune colonne Lambda détectée dans le fichier" ∧
    analyze_dataframe exA 20 = .ok (buildAnnotated exA 20) := by
  refine ⟨?_, ?_, ?_⟩
  · exact (claim_C4_amended exM 20).1 0 (by decide)
      (fun j hj => absurd hj (by omega)) (by decide)
  · exact (claim_C4_amended exNL 20).2.1 (by decide) (by decide)
  · exact (claim_C4_amended exA 20).2.2 exA_clean

/-- Witness for C5 (amended), at `exN`, whose second row is `NaN` in
every sensor channel: the run succeeds and `TPS_OK` is false there. -/
theorem claim_C5_amended_witness :
    exN.Wf ∧ firstMissing exN = none ∧ (lambdaCols exN).isEmpty = false ∧
    strFreeUsed exN = true ∧ cellAt exN "TPS (%)" 1 = Cell.nan ∧
    (∃ g, analyze_dataframe exN 20 = .ok g ∧ flagAt g "TPS_OK" 1 = false) := by
  have hw : exN.Wf := by decide
  obtain ⟨g, hok, himp⟩ :=
    claim_C5_amended exN 20 hw (by decide) (by decide) (by decide)
  refine ⟨hw, by decide, by decide, by decide, by decide, g, hok, ?_⟩
  exact (himp 1 (by decide)).1 (by decide)

/-- Witness for C6, at `exA`, row 0. -/
theorem claim_C6_witness :
    exA.Wf ∧ analyze_dataframe exA 20 = .ok (buildAnnotated exA 20) ∧
    cellAt (buildAnnotated exA 20) "Lambda" 0 =
      (if (numVals ((lambdaCols exA).map fun n => cellAt exA n 0)).isEmpty
       then Cell.nan
       else Cell.num
         ((numVals ((lambdaCols exA).map fun n => cellAt exA n 0)).sum /
           (numVals ((lambdaCols exA).map fun n => cellAt exA n 0)).length)) :=
  ⟨exA_wf, exA_ok, claim_C6 exA_wf exA_ok 0 (by decide)⟩

/-- Witness for C7, at `exA`, row 2 (whose predecessor is a confirmed
start). -/
theorem claim_C7_witness :
    exA.Wf ∧ analyze_dataframe exA 20 = .ok (buildAnnotated exA 20) ∧
    flagAt (buildAnnotated exA 20) "QUALIFIÉ" 2 =
      !(flagAt (buildAnnotated exA 20) "Début_triche" 2 ||
        (decide (0 < 2) && flagAt (buildAnnotated exA 20) "Début_triche" 1)) :=
  ⟨exA_wf, exA_ok, claim_C7 exA_wf exA_ok 2 (by decide)⟩

/-- Witness for C8, at `exA`. -/
theorem claim_C8_witness :
    exA.Wf ∧ analyze_dataframe exA 20 = .ok (buildAnnotated exA 20) ∧
    ((buildAnnotated exA 20).Wf ∧ (buildAnnotated exA 20).nrows = exA.nrows ∧
      ∀ n, n ∉ derivedNames →
        (buildAnnotated exA 20).getCol n = exA.getCol n) :=
  ⟨exA_wf, exA_ok, claim_C8 exA_wf exA_ok⟩

/-- Witness for C9, at `exA`, row 1, whose confirmed flag is set. -/
theorem claim_C9_witness :
    exA.Wf ∧ analyze_dataframe exA 20 = .ok (buildAnnotated exA 20) ∧
    flagAt (buildAnnotated exA 20) "Début_triche" 1 = true ∧
    flagAt (buildAnnotated exA 20) "OUT" 1 = true := by
  have h1 : flagAt (buildAnnotated exA 20) "Début_triche" 1 = true := by
    rw [flagAt_debut exA_wf exA_ok (by decide : 1 < exA.nrows)]
    exact exA_debut1
  exact ⟨exA_wf, exA_ok, h1, claim_C9 exA_wf exA_ok (by decide) h1⟩

/-- Witness for C10, at `exA`. -/
theorem claim_C10_witness :
    exA.Wf ∧ analyze_dataframe exA 20 = .ok (buildAnnotated exA 20) ∧
    0 < exA.nrows ∧
    (flagAt (buildAnnotated exA 20) "Début_triche" 0 = false ∧
     flagAt (buildAnnotated exA 20) "QUALIFIÉ" 0 = true) :=
  ⟨exA_wf, exA_ok, by decide, claim_C10 exA_wf exA_ok (by decide)⟩

end Boat
